import Mathlib

set_option linter.unusedVariables false

/-!
# GameBoyEmulator: instruction decoding and execution

A shallow embedding of `src/instruction/InstructionInterpreter.cpp`,
`src/instruction/Instruction.cpp`, `src/instruction/PushInstruction.h` and `src/CPU.h`.

* Machine integers are natural numbers; a value passed as `uint8_t` is reduced `% 256`, one
  passed as `uint16_t` is reduced `% 65536`.
* A `std::unique_ptr` local is an `Option`: `none` is the null (moved-from) pointer.
  Dereferencing a null pointer is the fault `Fault.null_dereference`.
* `abort()` is the fault `Fault.abort`.
* The `switch` is a list of case blocks in source order; a block that ends without `return`
  hands its locals to the block that follows it.
-/

namespace GameBoy

/-! ## Registers and memory (the external memory collaborator) -/

/-- Byte registers, with the flag byte that is the low half of the pair AF. -/
inductive Register where
  | A | F | B | C | D | E | H | L
  deriving DecidableEq, Repr

/-- Word registers and register pairs. -/
inductive WordRegister where
  | AF | BC | DE | HL | SP | PC
  deriving DecidableEq, Repr

/-- Modelled from the spec: the class `Memory` (memory/Memory.h is not among the sources).
The persistent state of the machine: the byte registers, the dedicated 16-bit stack pointer and
program counter, and the byte array indexed by 16-bit addresses. -/
structure Memory where
  a : Nat
  f : Nat
  b : Nat
  c : Nat
  d : Nat
  e : Nat
  h : Nat
  l : Nat
  sp : Nat
  pc : Nat
  mem : Nat → Nat

/-- Every stored byte fits 8 bits and every stored word fits 16 bits. -/
structure Memory.WF (m : Memory) : Prop where
  a_lt : m.a < 256
  f_lt : m.f < 256
  b_lt : m.b < 256
  c_lt : m.c < 256
  d_lt : m.d < 256
  e_lt : m.e < 256
  h_lt : m.h < 256
  l_lt : m.l < 256
  sp_lt : m.sp < 65536
  pc_lt : m.pc < 65536
  mem_lt : ∀ addr, m.mem addr < 256

/-- Modelled from the spec: the capability `ByteAddressable` (memory/ByteAddressable.h is not
among the sources): a handle on an 8-bit cell, backed by a register or by a memory byte. -/
inductive ByteAddressable where
  | register (r : Register)
  | memory (addr : Nat)
  deriving DecidableEq, Repr

/-- Modelled from the spec: the capability `WordAddressable` (memory/WordAddressable.h is not
among the sources): a handle on a 16-bit cell, backed by a register pair (high byte first), by
the dedicated SP or PC, by two consecutive memory bytes (low byte at the lower address), or, for
`Memory::get_word_ref`, by a word held in the handle itself. -/
inductive WordAddressable where
  | register (r : WordRegister)
  | memory (addr : Nat)
  | value (v : Nat)
  deriving DecidableEq, Repr

/-- The byte stored at a 16-bit address; addresses wrap at 0xFFFF. -/
def Memory.byte_at (m : Memory) (addr : Nat) : Nat :=
  m.mem (addr % 65536)

/-- Store a byte at a 16-bit address; addresses wrap at 0xFFFF. -/
def Memory.set_byte (m : Memory) (addr : Nat) (v : Nat) : Memory :=
  { m with mem := fun x => if x = addr % 65536 then v % 256 else m.mem x }

/-- Modelled from the spec: `ByteAddressable::read8`. -/
def ByteAddressable.read8 : ByteAddressable → Memory → Nat
  | .register .A, m => m.a
  | .register .F, m => m.f
  | .register .B, m => m.b
  | .register .C, m => m.c
  | .register .D, m => m.d
  | .register .E, m => m.e
  | .register .H, m => m.h
  | .register .L, m => m.l
  | .memory addr, m => m.byte_at addr

/-- Modelled from the spec: `ByteAddressable::write8`; the argument is a `uint8_t`. -/
def ByteAddressable.write8 : ByteAddressable → Nat → Memory → Memory
  | .register .A, v, m => { m with a := v % 256 }
  | .register .F, v, m => { m with f := v % 256 }
  | .register .B, v, m => { m with b := v % 256 }
  | .register .C, v, m => { m with c := v % 256 }
  | .register .D, v, m => { m with d := v % 256 }
  | .register .E, v, m => { m with e := v % 256 }
  | .register .H, v, m => { m with h := v % 256 }
  | .register .L, v, m => { m with l := v % 256 }
  | .memory addr, v, m => m.set_byte addr v

/-- Modelled from the spec: `WordAddressable::read16`. A register pair is read high byte first,
a memory word low byte first. -/
def WordAddressable.read16 : WordAddressable → Memory → Nat
  | .register .AF, m => m.a * 256 + m.f
  | .register .BC, m => m.b * 256 + m.c
  | .register .DE, m => m.d * 256 + m.e
  | .register .HL, m => m.h * 256 + m.l
  | .register .SP, m => m.sp
  | .register .PC, m => m.pc
  | .memory addr, m => m.byte_at addr + 256 * m.byte_at (addr + 1)
  | .value v, _ => v

/-- Modelled from the spec: `WordAddressable::write16`; the argument is a `uint16_t`. Both bytes
of the cell are replaced in one step. A handle that holds its own word leaves the machine state
as it is. -/
def WordAddressable.write16 : WordAddressable → Nat → Memory → Memory
  | .register .AF, v, m => { m with a := v % 65536 / 256, f := v % 256 }
  | .register .BC, v, m => { m with b := v % 65536 / 256, c := v % 256 }
  | .register .DE, v, m => { m with d := v % 65536 / 256, e := v % 256 }
  | .register .HL, v, m => { m with h := v % 65536 / 256, l := v % 256 }
  | .register .SP, v, m => { m with sp := v % 65536 }
  | .register .PC, v, m => { m with pc := v % 65536 }
  | .memory addr, v, m => (m.set_byte addr (v % 256)).set_byte (addr + 1) (v % 65536 / 256)
  | .value _, _, m => m

/-- What stops decoding or execution. -/
inductive Fault where
  | abort
  | null_dereference
  | uninitialised
  | out_of_fuel
  deriving DecidableEq, Repr

/-- Modelled from the spec: `Memory::get_register`. -/
def Memory.get_register (_memory : Memory) (r : Register) : Option ByteAddressable :=
  some (.register r)

/-- Modelled from the spec: `Memory::get_word_register`. -/
def Memory.get_word_register (_memory : Memory) (r : WordRegister) : Option WordAddressable :=
  some (.register r)

/-- Modelled from the spec: `Memory::get_word_ref`, a word handle that reads as the given
`uint16_t`. -/
def Memory.get_word_ref (_memory : Memory) (addr : Int) : Option WordAddressable :=
  some (.value (addr % 65536).toNat)

/-- Modelled from the spec: `Memory::deref(address_handle, offset)`, the byte at
`address_handle.read() + offset`. The argument `*p` of the source dereferences the pointer `p`. -/
def Memory.deref (memory : Memory) (p : Option WordAddressable) (offset : Nat) :
    Except Fault (Option ByteAddressable) :=
  match p with
  | none => .error .null_dereference
  | some r => .ok (some (.memory ((r.read16 memory + offset) % 65536)))

/-- Modelled from the spec: `Memory::deref_word(address_handle, offset)`, the 16-bit cell at
`address_handle.read() + offset`. -/
def Memory.deref_word (memory : Memory) (p : Option WordAddressable) (offset : Nat) :
    Except Fault (Option WordAddressable) :=
  match p with
  | none => .error .null_dereference
  | some r => .ok (some (.memory ((r.read16 memory + offset) % 65536)))

/-- The conversion `int8_t(x)` of a byte. -/
def int8_t (x : Nat) : Int :=
  if x % 256 < 128 then (x % 256 : Nat) else ((x % 256 : Nat) : Int) - 256

/-! ## Instructions (Instruction.cpp) -/

/-- The concrete instruction classes with the handles they own. -/
inductive Operation where
  | LoadByte (m_fromRef m_toRef : Option ByteAddressable)
  | LoadWord (m_fromRef m_toRef : Option WordAddressable)
  | Push (m_fromRef : Option WordAddressable)
  | Pop (m_toRef : Option WordAddressable)
  deriving DecidableEq, Repr

/-- The class `Instruction`: the operation of the subclass and the builder configuration.
`m_cycles` and `m_numBytes` are `none` until `with_cycles` and `with_instruction_length` set
them. A post-operation action is a closure over the memory. -/
structure Instruction where
  operation : Operation
  m_cycles : Option Nat := none
  m_numBytes : Option Nat := none
  m_postOperationActions : List (Memory → Memory) := []

/-- `Instruction::with_cycles(uint8_t numCycles)`. -/
def Instruction.with_cycles (i : Instruction) (numCycles : Nat) : Instruction :=
  { i with m_cycles := some (numCycles % 256) }

/-- `Instruction::with_instruction_length(uint16_t numBytes)`. -/
def Instruction.with_instruction_length (i : Instruction) (numBytes : Nat) : Instruction :=
  { i with m_numBytes := some (numBytes % 65536) }

/-- `Instruction::then(std::function<void()> action)`. -/
def Instruction.then_ (i : Instruction) (action : Memory → Memory) : Instruction :=
  { i with m_postOperationActions := i.m_postOperationActions ++ [action] }

/-- The class `CPU` of CPU.h: the memory it refers to, and the clock that `tick` advances.
Modelled from the spec: `tick` advances the clock by one unit. -/
structure CPU where
  m_memory : Memory
  clock : Nat

/-- `CPU::tick`. -/
def CPU.tick (cpu : CPU) : CPU :=
  { cpu with clock := cpu.clock + 1 }

/-- `CPU::get_program_counter`. -/
def CPU.get_program_counter (cpu : CPU) : Option WordAddressable :=
  cpu.m_memory.get_word_register .PC

/-- `CPU::get_stack_pointer`. -/
def CPU.get_stack_pointer (cpu : CPU) : Option WordAddressable :=
  cpu.m_memory.get_word_register .SP

/-- Modelled from the spec: `perform_operation` of the four instruction classes (their .cpp
files are not among the sources).
Load: `destination.write(source.read())`.
Push: decrement the stack pointer by 2, then write the source's word to memory at the new stack
pointer. Pop: read the word at the stack pointer into the destination, then increment the stack
pointer by 2. -/
def Operation.perform_operation : Operation → CPU → Except Fault CPU
  | .LoadByte (some fromRef) (some toRef), cpu =>
      .ok { cpu with m_memory := toRef.write8 (fromRef.read8 cpu.m_memory) cpu.m_memory }
  | .LoadByte _ _, _ => .error .null_dereference
  | .LoadWord (some fromRef) (some toRef), cpu =>
      .ok { cpu with m_memory := toRef.write16 (fromRef.read16 cpu.m_memory) cpu.m_memory }
  | .LoadWord _ _, _ => .error .null_dereference
  | .Push (some fromRef), cpu =>
      match cpu.get_stack_pointer with
      | none => .error .null_dereference
      | some spRef =>
        let m1 := spRef.write16 (spRef.read16 cpu.m_memory + 65536 - 2) cpu.m_memory
        let m2 := (WordAddressable.memory (spRef.read16 m1)).write16 (fromRef.read16 m1) m1
        .ok { cpu with m_memory := m2 }
  | .Push none, _ => .error .null_dereference
  | .Pop (some toRef), cpu =>
      match cpu.get_stack_pointer with
      | none => .error .null_dereference
      | some spRef =>
        let m1 := toRef.write16
          ((WordAddressable.memory (spRef.read16 cpu.m_memory)).read16 cpu.m_memory) cpu.m_memory
        let m2 := spRef.write16 (spRef.read16 m1 + 2) m1
        .ok { cpu with m_memory := m2 }
  | .Pop none, _ => .error .null_dereference

/-- `Instruction::move_program_counter`. -/
def Instruction.move_program_counter (i : Instruction) (cpu : CPU) : Except Fault CPU :=
  match cpu.get_program_counter, i.m_numBytes with
  | none, _ => .error .null_dereference
  | _, none => .error .uninitialised
  | some pcRef, some m_numBytes =>
    let pcValue := pcRef.read16 cpu.m_memory
    let pcValue := (pcValue + m_numBytes) % 65536
    .ok { cpu with m_memory := pcRef.write16 pcValue cpu.m_memory }

/-- The loop `while (cyclesTicked++ <= m_cycles) cpu.tick();` of `Instruction::tick_clock`,
with a bound on the number of times the condition is evaluated. -/
def tick_loop : Nat → Nat → Nat → CPU → Except Fault CPU
  | 0, _, _, _ => .error .out_of_fuel
  | fuel + 1, cyclesTicked, m_cycles, cpu =>
    if cyclesTicked ≤ m_cycles then tick_loop fuel (cyclesTicked + 1) m_cycles cpu.tick
    else .ok cpu

/-- `Instruction::tick_clock`: the loop starts at `cyclesTicked = 0`; its condition is
evaluated at most `m_cycles + 2` times. -/
def Instruction.tick_clock (i : Instruction) (cpu : CPU) : Except Fault CPU :=
  match i.m_cycles with
  | none => .error .uninitialised
  | some m_cycles => tick_loop (m_cycles + 2) 0 m_cycles cpu

/-- `Instruction::execute`. -/
def Instruction.execute (i : Instruction) (cpu : CPU) : Except Fault CPU :=
  (i.operation.perform_operation cpu).bind fun cpu =>
  let cpu := i.m_postOperationActions.foldl
    (fun cpu postOp => { cpu with m_memory := postOp cpu.m_memory }) cpu
  (i.move_program_counter cpu).bind fun cpu =>
  i.tick_clock cpu

/-! ## The decoder (InstructionInterpreter.cpp) -/

/-- The `unique_ptr<ByteAddressable>` locals of `interpret_next_instruction`. -/
inductive ByteLocal where
  | regA | regB | regC | regD | regE | regH | regL | immediateByteRef
  deriving DecidableEq, Repr

/-- The `unique_ptr<WordAddressable>` locals of `interpret_next_instruction`. -/
inductive WordLocal where
  | programCounterRef | regAF | regBC | regDE | regHL | stackPointerRef | immediateWordRef
  deriving DecidableEq, Repr

/-- The pointers held by the locals of `interpret_next_instruction`; `none` is a null pointer,
which is what a local holds once an instruction has been built from it. -/
structure Locals where
  byte : ByteLocal → Option ByteAddressable
  word : WordLocal → Option WordAddressable

/-- An argument `unique_ptr<T>&&` of a constructor: `move(x)` for a local `x`, or a temporary
returned by a call. -/
inductive MoveArg (L : Type) (T : Type) where
  | moved (x : L)
  | temporary (p : Option T)

/-- Move-construct a member from a byte argument: the member gets the pointer; a local that was
its origin is left null. -/
def Locals.take_byte (ls : Locals) : MoveArg ByteLocal ByteAddressable →
    Option ByteAddressable × Locals
  | .moved x => (ls.byte x, { ls with byte := fun y => if y = x then none else ls.byte y })
  | .temporary p => (p, ls)

/-- Move-construct a member from a word argument: the member gets the pointer; a local that was
its origin is left null. -/
def Locals.take_word (ls : Locals) : MoveArg WordLocal WordAddressable →
    Option WordAddressable × Locals
  | .moved x => (ls.word x, { ls with word := fun y => if y = x then none else ls.word y })
  | .temporary p => (p, ls)

/-- Modelled from the spec: the constructor of `LoadByteInstruction (source, destination)`
(its header is not among the sources), after `PushInstruction.h`: the arguments are rvalue
references to `unique_ptr`, and the members `m_fromRef`, `m_toRef` are move-constructed from them
in that order. -/
def LoadByteInstruction (fromRef toRef : MoveArg ByteLocal ByteAddressable) (ls : Locals) :
    Instruction × Locals :=
  let (m_fromRef, ls) := ls.take_byte fromRef
  let (m_toRef, ls) := ls.take_byte toRef
  ({ operation := .LoadByte m_fromRef m_toRef }, ls)

/-- Modelled from the spec: the constructor of `LoadWordInstruction (source, destination)`
(its header is not among the sources), after `PushInstruction.h`. -/
def LoadWordInstruction (fromRef toRef : MoveArg WordLocal WordAddressable) (ls : Locals) :
    Instruction × Locals :=
  let (m_fromRef, ls) := ls.take_word fromRef
  let (m_toRef, ls) := ls.take_word toRef
  ({ operation := .LoadWord m_fromRef m_toRef }, ls)

/-- The constructor `PushInstruction(std::unique_ptr<WordAddressable>&& fromRef)` of
`PushInstruction.h`, with its member `m_fromRef`. -/
def PushInstruction (fromRef : MoveArg WordLocal WordAddressable) (ls : Locals) :
    Instruction × Locals :=
  let (m_fromRef, ls) := ls.take_word fromRef
  ({ operation := .Push m_fromRef }, ls)

/-- Modelled from the spec: the constructor of `PopInstruction (destination)` (its header is not
among the sources), after `PushInstruction.h`. -/
def PopInstruction (toRef : MoveArg WordLocal WordAddressable) (ls : Locals) :
    Instruction × Locals :=
  let (m_toRef, ls) := ls.take_word toRef
  ({ operation := .Pop m_toRef }, ls)

/-- The value `*p` of a pointer. -/
def star {T : Type} : Option T → Except Fault T
  | none => .error .null_dereference
  | some r => .ok r

/-- `get_ref_with_signed_offset` (lines 16-21). -/
def get_ref_with_signed_offset (mem : Memory) (offsetRef : ByteAddressable) :
    Option WordAddressable :=
  let offsetValue := int8_t (offsetRef.read8 mem)
  let addr := 0xFF00 + offsetValue
  mem.get_word_ref addr

/-- The closure `[&memory]() { auto regHL = memory.get_word_register(WordRegister::HL);
regHL->write16(regHL->read16() + 1); }`. -/
def post_HL_plus_1 (memory : Memory) : Memory :=
  match memory.get_word_register .HL with
  | none => memory
  | some regHL => regHL.write16 (regHL.read16 memory + 1) memory

/-- The closure `[&memory]() { auto regHL = memory.get_word_register(WordRegister::HL);
regHL->write16(regHL->read16() - 1); }`; the difference is converted to `uint16_t`, so `- 1` is
`+ 65535` before the reduction. -/
def post_HL_minus_1 (memory : Memory) : Memory :=
  match memory.get_word_register .HL with
  | none => memory
  | some regHL => regHL.write16 (regHL.read16 memory + 65535) memory


/-- One group of `case` labels with the block that follows them. A block yields the instruction
it returns, or `none` when control runs off its end, together with the locals it leaves. -/
structure CaseBlock where
  labels : List Nat
  body : Memory → Locals → Except Fault (Option Instruction × Locals)

/-! ### The case blocks, in source order -/

/-- Lines 49-57, `case 0x00` to `case 0x01` (`LD BC,d16`). -/
def case_0x01 (memory : Memory) (ls : Locals) : Except Fault (Option Instruction × Locals) := do
  let (instr, ls) := LoadWordInstruction (.moved .immediateWordRef) (.moved .regBC) ls
  let instr := (instr.with_cycles 12).with_instruction_length 3
  return (some instr, ls)

/-- Lines 58-65, `case 0x02` (`LD (BC),A`). -/
def case_0x02 (memory : Memory) (ls : Locals) : Except Fault (Option Instruction × Locals) := do
  let t ← memory.deref (ls.word .regBC) 0
  let (instr, ls) := LoadByteInstruction (.moved .regA) (.temporary t) ls
  let instr := (instr.with_cycles 8).with_instruction_length 1
  return (some instr, ls)

/-- Lines 66-76, `case 0x03` to `case 0x06` (`LD B,n`). -/
def case_0x06 (memory : Memory) (ls : Locals) : Except Fault (Option Instruction × Locals) := do
  let (instr, ls) := LoadByteInstruction (.moved .regB) (.moved .immediateByteRef) ls
  let instr := (instr.with_cycles 8).with_instruction_length 2
  return (some instr, ls)

/-- Lines 77-84, `case 0x07` to `case 0x08` (`LD (a16),SP`); the block has no `return`. -/
def case_0x08 (memory : Memory) (ls : Locals) : Except Fault (Option Instruction × Locals) := do
  let t ← memory.deref_word (ls.word .immediateWordRef) 0
  let (instr, ls) := LoadWordInstruction (.moved .stackPointerRef) (.temporary t) ls
  let _instr := (instr.with_cycles 20).with_instruction_length 3
  return (none, ls)

/-- Lines 85-93, `case 0x09` to `case 0x0A` (`LD A,(BC)`). -/
def case_0x0A (memory : Memory) (ls : Locals) : Except Fault (Option Instruction × Locals) := do
  let t ← memory.deref (ls.word .regBC) 0
  let (instr, ls) := LoadByteInstruction (.temporary t) (.moved .regA) ls
  let instr := (instr.with_cycles 8).with_instruction_length 1
  return (some instr, ls)

/-- Lines 94-104, `case 0x0B` to `case 0x0E` (`LD C,n`). -/
def case_0x0E (memory : Memory) (ls : Locals) : Except Fault (Option Instruction × Locals) := do
  let (instr, ls) := LoadByteInstruction (.moved .regC) (.moved .immediateByteRef) ls
  let instr := (instr.with_cycles 8).with_instruction_length 2
  return (some instr, ls)

/-- Lines 105-114, `case 0x0F` to `case 0x11` (`LD DE,d16`). -/
def case_0x11 (memory : Memory) (ls : Locals) : Except Fault (Option Instruction × Locals) := do
  let (instr, ls) := LoadWordInstruction (.moved .immediateWordRef) (.moved .regDE) ls
  let instr := (instr.with_cycles 12).with_instruction_length 3
  return (some instr, ls)

/-- Lines 115-122, `case 0x12` (`LD (DE),A`). -/
def case_0x12 (memory : Memory) (ls : Locals) : Except Fault (Option Instruction × Locals) := do
  let t ← memory.deref (ls.word .regDE) 0
  let (instr, ls) := LoadByteInstruction (.moved .regA) (.temporary t) ls
  let instr := (instr.with_cycles 8).with_instruction_length 1
  return (some instr, ls)

/-- Lines 123-133, `case 0x13` to `case 0x16` (`LD D,n`). -/
def case_0x16 (memory : Memory) (ls : Locals) : Except Fault (Option Instruction × Locals) := do
  let (instr, ls) := LoadByteInstruction (.moved .regD) (.moved .immediateByteRef) ls
  let instr := (instr.with_cycles 8).with_instruction_length 2
  return (some instr, ls)

/-- Lines 134-144, `case 0x17` to `case 0x1A` (`LD A,(DE)`). -/
def case_0x1A (memory : Memory) (ls : Locals) : Except Fault (Option Instruction × Locals) := do
  let t ← memory.deref (ls.word .regDE) 0
  let (instr, ls) := LoadByteInstruction (.temporary t) (.moved .regA) ls
  let instr := (instr.with_cycles 8).with_instruction_length 1
  return (some instr, ls)

/-- Lines 145-155, `case 0x1B` to `case 0x1E` (`LD E,n`). -/
def case_0x1E (memory : Memory) (ls : Locals) : Except Fault (Option Instruction × Locals) := do
  let (instr, ls) := LoadByteInstruction (.moved .regE) (.moved .immediateByteRef) ls
  let instr := (instr.with_cycles 8).with_instruction_length 2
  return (some instr, ls)

/-- Lines 156-165, `case 0x1F` to `case 0x21` (`LD HL,d16`). -/
def case_0x21 (memory : Memory) (ls : Locals) : Except Fault (Option Instruction × Locals) := do
  let (instr, ls) := LoadWordInstruction (.moved .immediateWordRef) (.moved .regHL) ls
  let instr := (instr.with_cycles 12).with_instruction_length 3
  return (some instr, ls)

/-- Lines 166-175, `case 0x22` (`LD (HL+),A`); the block has no `return`. -/
def case_0x22 (memory : Memory) (ls : Locals) : Except Fault (Option Instruction × Locals) := do
  let t ← memory.deref (ls.word .regHL) 0
  let (instr, ls) := LoadByteInstruction (.moved .regA) (.temporary t) ls
  let _instr := ((instr.with_cycles 8).with_instruction_length 1).then_ post_HL_plus_1
  return (none, ls)

/-- Lines 176-186, `case 0x23` to `case 0x26` (`LD H,n`). -/
def case_0x26 (memory : Memory) (ls : Locals) : Except Fault (Option Instruction × Locals) := do
  let (instr, ls) := LoadByteInstruction (.moved .regH) (.moved .immediateByteRef) ls
  let instr := (instr.with_cycles 8).with_instruction_length 2
  return (some instr, ls)

/-- Lines 187-199, `case 0x27` to `case 0x2A` (`LD A,(HL+)`); the block has no `return`. -/
def case_0x2A (memory : Memory) (ls : Locals) : Except Fault (Option Instruction × Locals) := do
  let t ← memory.deref (ls.word .regHL) 0
  let (instr, ls) := LoadByteInstruction (.temporary t) (.moved .regA) ls
  let _instr := ((instr.with_cycles 8).with_instruction_length 1).then_ post_HL_plus_1
  return (none, ls)

/-- Lines 200-210, `case 0x2B` to `case 0x2E` (`LD L,n`). -/
def case_0x2E (memory : Memory) (ls : Locals) : Except Fault (Option Instruction × Locals) := do
  let (instr, ls) := LoadByteInstruction (.moved .regL) (.moved .immediateByteRef) ls
  let instr := (instr.with_cycles 8).with_instruction_length 2
  return (some instr, ls)

/-- Lines 211-220, `case 0x2F` to `case 0x31` (`LD SP,d16`). -/
def case_0x31 (memory : Memory) (ls : Locals) : Except Fault (Option Instruction × Locals) := do
  let (instr, ls) := LoadWordInstruction (.moved .immediateWordRef) (.moved .stackPointerRef) ls
  let instr := (instr.with_cycles 12).with_instruction_length 3
  return (some instr, ls)

/-- Lines 221-230, `case 0x32` (`LD (HL-),A`); the block has no `return`. -/
def case_0x32 (memory : Memory) (ls : Locals) : Except Fault (Option Instruction × Locals) := do
  let t ← memory.deref (ls.word .regHL) 0
  let (instr, ls) := LoadByteInstruction (.moved .regA) (.temporary t) ls
  let _instr := ((instr.with_cycles 8).with_instruction_length 1).then_ post_HL_minus_1
  return (none, ls)

/-- Lines 231-241, `case 0x33` to `case 0x36` (`LD (HL),n`). -/
def case_0x36 (memory : Memory) (ls : Locals) : Except Fault (Option Instruction × Locals) := do
  let t ← memory.deref (ls.word .regHL) 0
  let (instr, ls) := LoadByteInstruction (.moved .immediateByteRef) (.temporary t) ls
  let instr := (instr.with_cycles 12).with_instruction_length 2
  return (some instr, ls)

/-- Lines 242-254, `case 0x37` to `case 0x3A` (`LD A,(HL-)`); the block has no `return`. -/
def case_0x3A (memory : Memory) (ls : Locals) : Except Fault (Option Instruction × Locals) := do
  let t ← memory.deref (ls.word .regHL) 0
  let (instr, ls) := LoadByteInstruction (.temporary t) (.moved .regA) ls
  let _instr := ((instr.with_cycles 8).with_instruction_length 1).then_ post_HL_minus_1
  return (none, ls)

/-- Lines 255-265, `case 0x3B` to `case 0x3E` (`LD A,d8`). -/
def case_0x3E (memory : Memory) (ls : Locals) : Except Fault (Option Instruction × Locals) := do
  let (instr, ls) := LoadByteInstruction (.moved .immediateByteRef) (.moved .regA) ls
  let instr := (instr.with_cycles 8).with_instruction_length 1
  return (some instr, ls)

/-- Lines 266-274, `case 0x3F` to `case 0x40` (`LD B,B`). -/
def case_0x40 (memory : Memory) (ls : Locals) : Except Fault (Option Instruction × Locals) := do
  let (instr, ls) := LoadByteInstruction (.moved .regB) (.moved .regB) ls
  let instr := (instr.with_cycles 4).with_instruction_length 1
  return (some instr, ls)

/-- Lines 275-282, `case 0x41` (`LD B,C`). -/
def case_0x41 (memory : Memory) (ls : Locals) : Except Fault (Option Instruction × Locals) := do
  let (instr, ls) := LoadByteInstruction (.moved .regC) (.moved .regB) ls
  let instr := (instr.with_cycles 4).with_instruction_length 1
  return (some instr, ls)

/-- Lines 283-290, `case 0x42` (`LD B,D`). -/
def case_0x42 (memory : Memory) (ls : Locals) : Except Fault (Option Instruction × Locals) := do
  let (instr, ls) := LoadByteInstruction (.moved .regD) (.moved .regB) ls
  let instr := (instr.with_cycles 4).with_instruction_length 1
  return (some instr, ls)

/-- Lines 291-298, `case 0x43` (`LD B,E`). -/
def case_0x43 (memory : Memory) (ls : Locals) : Except Fault (Option Instruction × Locals) := do
  let (instr, ls) := LoadByteInstruction (.moved .regE) (.moved .regB) ls
  let instr := (instr.with_cycles 4).with_instruction_length 1
  return (some instr, ls)

/-- Lines 299-306, `case 0x44` (`LD B,H`). -/
def case_0x44 (memory : Memory) (ls : Locals) : Except Fault (Option Instruction × Locals) := do
  let (instr, ls) := LoadByteInstruction (.moved .regH) (.moved .regB) ls
  let instr := (instr.with_cycles 4).with_instruction_length 1
  return (some instr, ls)

/-- Lines 307-314, `case 0x45` (`LD B,L`). -/
def case_0x45 (memory : Memory) (ls : Locals) : Except Fault (Option Instruction × Locals) := do
  let (instr, ls) := LoadByteInstruction (.moved .regL) (.moved .regB) ls
  let instr := (instr.with_cycles 4).with_instruction_length 1
  return (some instr, ls)

/-- Lines 315-322, `case 0x46` (`LD B,(HL)`). -/
def case_0x46 (memory : Memory) (ls : Locals) : Except Fault (Option Instruction × Locals) := do
  let t ← memory.deref (ls.word .regHL) 0
  let (instr, ls) := LoadByteInstruction (.temporary t) (.moved .regB) ls
  let instr := (instr.with_cycles 8).with_instruction_length 1
  return (some instr, ls)

/-- Lines 323-330, `case 0x47` (`LD B,A`). -/
def case_0x47 (memory : Memory) (ls : Locals) : Except Fault (Option Instruction × Locals) := do
  let (instr, ls) := LoadByteInstruction (.moved .regA) (.moved .regB) ls
  let instr := (instr.with_cycles 4).with_instruction_length 1
  return (some instr, ls)

/-- Lines 331-338, `case 0x48` (`LD C,B`). -/
def case_0x48 (memory : Memory) (ls : Locals) : Except Fault (Option Instruction × Locals) := do
  let (instr, ls) := LoadByteInstruction (.moved .regB) (.moved .regC) ls
  let instr := (instr.with_cycles 4).with_instruction_length 1
  return (some instr, ls)

/-- Lines 339-346, `case 0x49` (`LD C,C`). -/
def case_0x49 (memory : Memory) (ls : Locals) : Except Fault (Option Instruction × Locals) := do
  let (instr, ls) := LoadByteInstruction (.moved .regC) (.moved .regC) ls
  let instr := (instr.with_cycles 4).with_instruction_length 1
  return (some instr, ls)

/-- Lines 347-354, `case 0x4A` (`LD C,D`). -/
def case_0x4A (memory : Memory) (ls : Locals) : Except Fault (Option Instruction × Locals) := do
  let (instr, ls) := LoadByteInstruction (.moved .regD) (.moved .regC) ls
  let instr := (instr.with_cycles 4).with_instruction_length 1
  return (some instr, ls)

/-- Lines 355-362, `case 0x4B` (`LD C,E`). -/
def case_0x4B (memory : Memory) (ls : Locals) : Except Fault (Option Instruction × Locals) := do
  let (instr, ls) := LoadByteInstruction (.moved .regE) (.moved .regC) ls
  let instr := (instr.with_cycles 4).with_instruction_length 1
  return (some instr, ls)

/-- Lines 363-370, `case 0x4C` (`LD C,H`). -/
def case_0x4C (memory : Memory) (ls : Locals) : Except Fault (Option Instruction × Locals) := do
  let (instr, ls) := LoadByteInstruction (.moved .regH) (.moved .regC) ls
  let instr := (instr.with_cycles 4).with_instruction_length 1
  return (some instr, ls)

/-- Lines 371-378, `case 0x4D` (`LD C,L`). -/
def case_0x4D (memory : Memory) (ls : Locals) : Except Fault (Option Instruction × Locals) := do
  let (instr, ls) := LoadByteInstruction (.moved .regL) (.moved .regC) ls
  let instr := (instr.with_cycles 4).with_instruction_length 1
  return (some instr, ls)

/-- Lines 379-386, `case 0x4E` (`LD C,(HL)`). -/
def case_0x4E (memory : Memory) (ls : Locals) : Except Fault (Option Instruction × Locals) := do
  let t ← memory.deref (ls.word .regHL) 0
  let (instr, ls) := LoadByteInstruction (.temporary t) (.moved .regC) ls
  let instr := (instr.with_cycles 8).with_instruction_length 1
  return (some instr, ls)

/-- Lines 387-394, `case 0x4F` (`LD C,A`). -/
def case_0x4F (memory : Memory) (ls : Locals) : Except Fault (Option Instruction × Locals) := do
  let (instr, ls) := LoadByteInstruction (.moved .regA) (.moved .regC) ls
  let instr := (instr.with_cycles 4).with_instruction_length 1
  return (some instr, ls)

/-- Lines 395-402, `case 0x50` (`LD D,B`). -/
def case_0x50 (memory : Memory) (ls : Locals) : Except Fault (Option Instruction × Locals) := do
  let (instr, ls) := LoadByteInstruction (.moved .regB) (.moved .regD) ls
  let instr := (instr.with_cycles 4).with_instruction_length 1
  return (some instr, ls)

/-- Lines 403-410, `case 0x51` (`LD D,C`). -/
def case_0x51 (memory : Memory) (ls : Locals) : Except Fault (Option Instruction × Locals) := do
  let (instr, ls) := LoadByteInstruction (.moved .regC) (.moved .regD) ls
  let instr := (instr.with_cycles 4).with_instruction_length 1
  return (some instr, ls)

/-- Lines 411-418, `case 0x52` (`LD D,D`). -/
def case_0x52 (memory : Memory) (ls : Locals) : Except Fault (Option Instruction × Locals) := do
  let (instr, ls) := LoadByteInstruction (.moved .regD) (.moved .regD) ls
  let instr := (instr.with_cycles 4).with_instruction_length 1
  return (some instr, ls)

/-- Lines 419-426, `case 0x53` (`LD D,E`). -/
def case_0x53 (memory : Memory) (ls : Locals) : Except Fault (Option Instruction × Locals) := do
  let (instr, ls) := LoadByteInstruction (.moved .regE) (.moved .regD) ls
  let instr := (instr.with_cycles 4).with_instruction_length 1
  return (some instr, ls)

/-- Lines 427-434, `case 0x54` (`LD D,H`). -/
def case_0x54 (memory : Memory) (ls : Locals) : Except Fault (Option Instruction × Locals) := do
  let (instr, ls) := LoadByteInstruction (.moved .regH) (.moved .regD) ls
  let instr := (instr.with_cycles 4).with_instruction_length 1
  return (some instr, ls)

/-- Lines 435-442, `case 0x55` (`LD D,L`). -/
def case_0x55 (memory : Memory) (ls : Locals) : Except Fault (Option Instruction × Locals) := do
  let (instr, ls) := LoadByteInstruction (.moved .regL) (.moved .regD) ls
  let instr := (instr.with_cycles 4).with_instruction_length 1
  return (some instr, ls)

/-- Lines 443-450, `case 0x56` (`LD D,(HL)`). -/
def case_0x56 (memory : Memory) (ls : Locals) : Except Fault (Option Instruction × Locals) := do
  let t ← memory.deref (ls.word .regHL) 0
  let (instr, ls) := LoadByteInstruction (.temporary t) (.moved .regD) ls
  let instr := (instr.with_cycles 8).with_instruction_length 1
  return (some instr, ls)

/-- Lines 451-458, `case 0x57` (`LD D,A`). -/
def case_0x57 (memory : Memory) (ls : Locals) : Except Fault (Option Instruction × Locals) := do
  let (instr, ls) := LoadByteInstruction (.moved .regA) (.moved .regD) ls
  let instr := (instr.with_cycles 4).with_instruction_length 1
  return (some instr, ls)

/-- Lines 459-466, `case 0x58` (`LD E,B`). -/
def case_0x58 (memory : Memory) (ls : Locals) : Except Fault (Option Instruction × Locals) := do
  let (instr, ls) := LoadByteInstruction (.moved .regB) (.moved .regE) ls
  let instr := (instr.with_cycles 4).with_instruction_length 1
  return (some instr, ls)

/-- Lines 467-474, `case 0x59` (`LD E,C`). -/
def case_0x59 (memory : Memory) (ls : Locals) : Except Fault (Option Instruction × Locals) := do
  let (instr, ls) := LoadByteInstruction (.moved .regC) (.moved .regE) ls
  let instr := (instr.with_cycles 4).with_instruction_length 1
  return (some instr, ls)

/-- Lines 475-482, `case 0x5A` (`LD E,D`). -/
def case_0x5A (memory : Memory) (ls : Locals) : Except Fault (Option Instruction × Locals) := do
  let (instr, ls) := LoadByteInstruction (.moved .regD) (.moved .regE) ls
  let instr := (instr.with_cycles 4).with_instruction_length 1
  return (some instr, ls)

/-- Lines 483-490, `case 0x5B` (`LD E,E`). -/
def case_0x5B (memory : Memory) (ls : Locals) : Except Fault (Option Instruction × Locals) := do
  let (instr, ls) := LoadByteInstruction (.moved .regE) (.moved .regE) ls
  let instr := (instr.with_cycles 4).with_instruction_length 1
  return (some instr, ls)

/-- Lines 491-498, `case 0x5C` (`LD E,H`). -/
def case_0x5C (memory : Memory) (ls : Locals) : Except Fault (Option Instruction × Locals) := do
  let (instr, ls) := LoadByteInstruction (.moved .regH) (.moved .regE) ls
  let instr := (instr.with_cycles 4).with_instruction_length 1
  return (some instr, ls)

/-- Lines 499-506, `case 0x5D` (`LD E,L`). -/
def case_0x5D (memory : Memory) (ls : Locals) : Except Fault (Option Instruction × Locals) := do
  let (instr, ls) := LoadByteInstruction (.moved .regL) (.moved .regE) ls
  let instr := (instr.with_cycles 4).with_instruction_length 1
  return (some instr, ls)

/-- Lines 507-514, `case 0x5E` (`LD E,(HL)`). -/
def case_0x5E (memory : Memory) (ls : Locals) : Except Fault (Option Instruction × Locals) := do
  let t ← memory.deref (ls.word .regHL) 0
  let (instr, ls) := LoadByteInstruction (.temporary t) (.moved .regE) ls
  let instr := (instr.with_cycles 8).with_instruction_length 1
  return (some instr, ls)

/-- Lines 515-522, `case 0x5F` (`LD E,A`). -/
def case_0x5F (memory : Memory) (ls : Locals) : Except Fault (Option Instruction × Locals) := do
  let (instr, ls) := LoadByteInstruction (.moved .regA) (.moved .regE) ls
  let instr := (instr.with_cycles 4).with_instruction_length 1
  return (some instr, ls)

/-- Lines 523-530, `case 0x60` (`LD H,B`). -/
def case_0x60 (memory : Memory) (ls : Locals) : Except Fault (Option Instruction × Locals) := do
  let (instr, ls) := LoadByteInstruction (.moved .regB) (.moved .regH) ls
  let instr := (instr.with_cycles 4).with_instruction_length 1
  return (some instr, ls)

/-- Lines 531-538, `case 0x61` (`LD H,C`). -/
def case_0x61 (memory : Memory) (ls : Locals) : Except Fault (Option Instruction × Locals) := do
  let (instr, ls) := LoadByteInstruction (.moved .regC) (.moved .regH) ls
  let instr := (instr.with_cycles 4).with_instruction_length 1
  return (some instr, ls)

/-- Lines 539-546, `case 0x62` (`LD H,D`). -/
def case_0x62 (memory : Memory) (ls : Locals) : Except Fault (Option Instruction × Locals) := do
  let (instr, ls) := LoadByteInstruction (.moved .regD) (.moved .regH) ls
  let instr := (instr.with_cycles 4).with_instruction_length 1
  return (some instr, ls)

/-- Lines 547-554, `case 0x63` (`LD H,E`). -/
def case_0x63 (memory : Memory) (ls : Locals) : Except Fault (Option Instruction × Locals) := do
  let (instr, ls) := LoadByteInstruction (.moved .regE) (.moved .regH) ls
  let instr := (instr.with_cycles 4).with_instruction_length 1
  return (some instr, ls)

/-- Lines 555-562, `case 0x64` (`LD H,H`). -/
def case_0x64 (memory : Memory) (ls : Locals) : Except Fault (Option Instruction × Locals) := do
  let (instr, ls) := LoadByteInstruction (.moved .regH) (.moved .regH) ls
  let instr := (instr.with_cycles 4).with_instruction_length 1
  return (some instr, ls)

/-- Lines 563-570, `case 0x65` (`LD H,L`). -/
def case_0x65 (memory : Memory) (ls : Locals) : Except Fault (Option Instruction × Locals) := do
  let (instr, ls) := LoadByteInstruction (.moved .regL) (.moved .regH) ls
  let instr := (instr.with_cycles 4).with_instruction_length 1
  return (some instr, ls)

/-- Lines 571-578, `case 0x66` (`LD H,(HL)`). -/
def case_0x66 (memory : Memory) (ls : Locals) : Except Fault (Option Instruction × Locals) := do
  let t ← memory.deref (ls.word .regHL) 0
  let (instr, ls) := LoadByteInstruction (.temporary t) (.moved .regH) ls
  let instr := (instr.with_cycles 8).with_instruction_length 1
  return (some instr, ls)

/-- Lines 579-586, `case 0x67` (`LD H,A`). -/
def case_0x67 (memory : Memory) (ls : Locals) : Except Fault (Option Instruction × Locals) := do
  let (instr, ls) := LoadByteInstruction (.moved .regA) (.moved .regH) ls
  let instr := (instr.with_cycles 4).with_instruction_length 1
  return (some instr, ls)

/-- Lines 587-594, `case 0x68` (`LD L,B`). -/
def case_0x68 (memory : Memory) (ls : Locals) : Except Fault (Option Instruction × Locals) := do
  let (instr, ls) := LoadByteInstruction (.moved .regB) (.moved .regL) ls
  let instr := (instr.with_cycles 4).with_instruction_length 1
  return (some instr, ls)

/-- Lines 595-602, `case 0x69` (`LD L,C`). -/
def case_0x69 (memory : Memory) (ls : Locals) : Except Fault (Option Instruction × Locals) := do
  let (instr, ls) := LoadByteInstruction (.moved .regC) (.moved .regL) ls
  let instr := (instr.with_cycles 4).with_instruction_length 1
  return (some instr, ls)

/-- Lines 603-610, `case 0x6A` (`LD L,D`). -/
def case_0x6A (memory : Memory) (ls : Locals) : Except Fault (Option Instruction × Locals) := do
  let (instr, ls) := LoadByteInstruction (.moved .regD) (.moved .regL) ls
  let instr := (instr.with_cycles 4).with_instruction_length 1
  return (some instr, ls)

/-- Lines 611-618, `case 0x6B` (`LD L,E`). -/
def case_0x6B (memory : Memory) (ls : Locals) : Except Fault (Option Instruction × Locals) := do
  let (instr, ls) := LoadByteInstruction (.moved .regE) (.moved .regL) ls
  let instr := (instr.with_cycles 4).with_instruction_length 1
  return (some instr, ls)

/-- Lines 619-626, `case 0x6C` (`LD L,H`). -/
def case_0x6C (memory : Memory) (ls : Locals) : Except Fault (Option Instruction × Locals) := do
  let (instr, ls) := LoadByteInstruction (.moved .regH) (.moved .regL) ls
  let instr := (instr.with_cycles 4).with_instruction_length 1
  return (some instr, ls)

/-- Lines 627-634, `case 0x6D` (`LD L,L`). -/
def case_0x6D (memory : Memory) (ls : Locals) : Except Fault (Option Instruction × Locals) := do
  let (instr, ls) := LoadByteInstruction (.moved .regL) (.moved .regL) ls
  let instr := (instr.with_cycles 4).with_instruction_length 1
  return (some instr, ls)

/-- Lines 635-642, `case 0x6E` (`LD L,(HL)`). -/
def case_0x6E (memory : Memory) (ls : Locals) : Except Fault (Option Instruction × Locals) := do
  let t ← memory.deref (ls.word .regHL) 0
  let (instr, ls) := LoadByteInstruction (.temporary t) (.moved .regL) ls
  let instr := (instr.with_cycles 8).with_instruction_length 1
  return (some instr, ls)

/-- Lines 643-650, `case 0x6F` (`LD L,A`). -/
def case_0x6F (memory : Memory) (ls : Locals) : Except Fault (Option Instruction × Locals) := do
  let (instr, ls) := LoadByteInstruction (.moved .regA) (.moved .regL) ls
  let instr := (instr.with_cycles 4).with_instruction_length 1
  return (some instr, ls)

/-- Lines 651-658, `case 0x70` (`LD (HL),B`). -/
def case_0x70 (memory : Memory) (ls : Locals) : Except Fault (Option Instruction × Locals) := do
  let t ← memory.deref (ls.word .regHL) 0
  let (instr, ls) := LoadByteInstruction (.moved .regB) (.temporary t) ls
  let instr := (instr.with_cycles 8).with_instruction_length 1
  return (some instr, ls)

/-- Lines 659-666, `case 0x71` (`LD (HL),C`). -/
def case_0x71 (memory : Memory) (ls : Locals) : Except Fault (Option Instruction × Locals) := do
  let t ← memory.deref (ls.word .regHL) 0
  let (instr, ls) := LoadByteInstruction (.moved .regC) (.temporary t) ls
  let instr := (instr.with_cycles 8).with_instruction_length 1
  return (some instr, ls)

/-- Lines 667-674, `case 0x72` (`LD (HL),D`). -/
def case_0x72 (memory : Memory) (ls : Locals) : Except Fault (Option Instruction × Locals) := do
  let t ← memory.deref (ls.word .regHL) 0
  let (instr, ls) := LoadByteInstruction (.moved .regD) (.temporary t) ls
  let instr := (instr.with_cycles 8).with_instruction_length 1
  return (some instr, ls)

/-- Lines 675-682, `case 0x73` (`LD (HL),E`). -/
def case_0x73 (memory : Memory) (ls : Locals) : Except Fault (Option Instruction × Locals) := do
  let t ← memory.deref (ls.word .regHL) 0
  let (instr, ls) := LoadByteInstruction (.moved .regE) (.temporary t) ls
  let instr := (instr.with_cycles 8).with_instruction_length 1
  return (some instr, ls)

/-- Lines 683-690, `case 0x74` (`LD (HL),H`). -/
def case_0x74 (memory : Memory) (ls : Locals) : Except Fault (Option Instruction × Locals) := do
  let t ← memory.deref (ls.word .regHL) 0
  let (instr, ls) := LoadByteInstruction (.moved .regH) (.temporary t) ls
  let instr := (instr.with_cycles 8).with_instruction_length 1
  return (some instr, ls)

/-- Lines 691-698, `case 0x75` (`LD (HL),L`). -/
def case_0x75 (memory : Memory) (ls : Locals) : Except Fault (Option Instruction × Locals) := do
  let t ← memory.deref (ls.word .regHL) 0
  let (instr, ls) := LoadByteInstruction (.moved .regB) (.temporary t) ls
  let instr := (instr.with_cycles 8).with_instruction_length 1
  return (some instr, ls)

/-- Lines 699-707, `case 0x76` to `case 0x77` (`LD (HL),A`). -/
def case_0x77 (memory : Memory) (ls : Locals) : Except Fault (Option Instruction × Locals) := do
  let t ← memory.deref (ls.word .regHL) 0
  let (instr, ls) := LoadByteInstruction (.moved .regA) (.temporary t) ls
  let instr := (instr.with_cycles 8).with_instruction_length 1
  return (some instr, ls)

/-- Lines 708-715, `case 0x78` (`LD A,B`). -/
def case_0x78 (memory : Memory) (ls : Locals) : Except Fault (Option Instruction × Locals) := do
  let (instr, ls) := LoadByteInstruction (.moved .regB) (.moved .regA) ls
  let instr := (instr.with_cycles 4).with_instruction_length 1
  return (some instr, ls)

/-- Lines 716-723, `case 0x79` (`LD A,C`). -/
def case_0x79 (memory : Memory) (ls : Locals) : Except Fault (Option Instruction × Locals) := do
  let (instr, ls) := LoadByteInstruction (.moved .regC) (.moved .regA) ls
  let instr := (instr.with_cycles 4).with_instruction_length 1
  return (some instr, ls)

/-- Lines 724-731, `case 0x7A` (`LD A,D`). -/
def case_0x7A (memory : Memory) (ls : Locals) : Except Fault (Option Instruction × Locals) := do
  let (instr, ls) := LoadByteInstruction (.moved .regD) (.moved .regA) ls
  let instr := (instr.with_cycles 4).with_instruction_length 1
  return (some instr, ls)

/-- Lines 732-739, `case 0x7B` (`LD A,E`). -/
def case_0x7B (memory : Memory) (ls : Locals) : Except Fault (Option Instruction × Locals) := do
  let (instr, ls) := LoadByteInstruction (.moved .regE) (.moved .regA) ls
  let instr := (instr.with_cycles 4).with_instruction_length 1
  return (some instr, ls)

/-- Lines 740-747, `case 0x7C` (`LD A,H`). -/
def case_0x7C (memory : Memory) (ls : Locals) : Except Fault (Option Instruction × Locals) := do
  let (instr, ls) := LoadByteInstruction (.moved .regH) (.moved .regA) ls
  let instr := (instr.with_cycles 4).with_instruction_length 1
  return (some instr, ls)

/-- Lines 748-755, `case 0x7D` (`LD A,L`). -/
def case_0x7D (memory : Memory) (ls : Locals) : Except Fault (Option Instruction × Locals) := do
  let (instr, ls) := LoadByteInstruction (.moved .regL) (.moved .regA) ls
  let instr := (instr.with_cycles 4).with_instruction_length 1
  return (some instr, ls)

/-- Lines 756-763, `case 0x7E` (`LD A,(HL)`). -/
def case_0x7E (memory : Memory) (ls : Locals) : Except Fault (Option Instruction × Locals) := do
  let t ← memory.deref (ls.word .regHL) 0
  let (instr, ls) := LoadByteInstruction (.temporary t) (.moved .regA) ls
  let instr := (instr.with_cycles 8).with_instruction_length 1
  return (some instr, ls)

/-- Lines 764-771, `case 0x7F` (`LD A,A`). -/
def case_0x7F (memory : Memory) (ls : Locals) : Except Fault (Option Instruction × Locals) := do
  let (instr, ls) := LoadByteInstruction (.moved .regA) (.moved .regA) ls
  let instr := (instr.with_cycles 4).with_instruction_length 1
  return (some instr, ls)

/-- Lines 772-843, `case 0x80` to `case 0xC1` (`POP BC`). -/
def case_0xC1 (memory : Memory) (ls : Locals) : Except Fault (Option Instruction × Locals) := do
  let (instr, ls) := PopInstruction (.moved .regBC) ls
  let instr := (instr.with_cycles 12).with_instruction_length 1
  return (some instr, ls)

/-- Lines 844-853, `case 0xC2` to `case 0xC5` (`PUSH BC`). -/
def case_0xC5 (memory : Memory) (ls : Locals) : Except Fault (Option Instruction × Locals) := do
  let (instr, ls) := PushInstruction (.moved .regBC) ls
  let instr := (instr.with_cycles 16).with_instruction_length 1
  return (some instr, ls)

/-- Lines 854-871, `case 0xC6` to `case 0xD1` (`POP DE`). -/
def case_0xD1 (memory : Memory) (ls : Locals) : Except Fault (Option Instruction × Locals) := do
  let (instr, ls) := PopInstruction (.moved .regDE) ls
  let instr := (instr.with_cycles 12).with_instruction_length 1
  return (some instr, ls)

/-- Lines 872-881, `case 0xD2` to `case 0xD5` (`PUSH DE`). -/
def case_0xD5 (memory : Memory) (ls : Locals) : Except Fault (Option Instruction × Locals) := do
  let (instr, ls) := PushInstruction (.moved .regDE) ls
  let instr := (instr.with_cycles 16).with_instruction_length 1
  return (some instr, ls)

/-- Lines 882-900, `case 0xD6` to `case 0xE0` (`LDH ($FF00+a8),A`). -/
def case_0xE0 (memory : Memory) (ls : Locals) : Except Fault (Option Instruction × Locals) := do
  let derefWith := get_ref_with_signed_offset memory (← star (ls.byte .immediateByteRef))
  let t ← memory.deref derefWith 0
  let (instr, ls) := LoadByteInstruction (.moved .regA) (.temporary t) ls
  let instr := (instr.with_cycles 12).with_instruction_length 2
  return (some instr, ls)

/-- Lines 901-907, `case 0xE1` (`POP HL`). -/
def case_0xE1 (memory : Memory) (ls : Locals) : Except Fault (Option Instruction × Locals) := do
  let (instr, ls) := PopInstruction (.moved .regHL) ls
  let instr := (instr.with_cycles 12).with_instruction_length 1
  return (some instr, ls)

/-- Lines 908-916, `case 0xE2` (`LD ($FF00+C),A`). -/
def case_0xE2 (memory : Memory) (ls : Locals) : Except Fault (Option Instruction × Locals) := do
  let derefWith := get_ref_with_signed_offset memory (← star (ls.byte .regC))
  let t ← memory.deref derefWith 0
  let (instr, ls) := LoadByteInstruction (.temporary t) (.moved .regA) ls
  let instr := (instr.with_cycles 8).with_instruction_length 1
  return (some instr, ls)

/-- Lines 917-925, `case 0xE3` to `case 0xE5` (`PUSH HL`). -/
def case_0xE5 (memory : Memory) (ls : Locals) : Except Fault (Option Instruction × Locals) := do
  let (instr, ls) := PushInstruction (.moved .regHL) ls
  let instr := (instr.with_cycles 16).with_instruction_length 1
  return (some instr, ls)

/-- Lines 926-937, `case 0xE6` to `case 0xEA` (`LD (a16),A`). -/
def case_0xEA (memory : Memory) (ls : Locals) : Except Fault (Option Instruction × Locals) := do
  let t ← memory.deref (ls.word .immediateWordRef) 0
  let (instr, ls) := LoadByteInstruction (.moved .regA) (.temporary t) ls
  let instr := (instr.with_cycles 8).with_instruction_length 1
  return (some instr, ls)

/-- Lines 938-951, `case 0xEB` to `case 0xF0` (`LDH A,($FF00+a8)`). -/
def case_0xF0 (memory : Memory) (ls : Locals) : Except Fault (Option Instruction × Locals) := do
  let derefWith := get_ref_with_signed_offset memory (← star (ls.byte .immediateByteRef))
  let t ← memory.deref derefWith 0
  let (instr, ls) := LoadByteInstruction (.temporary t) (.moved .regA) ls
  let instr := (instr.with_cycles 12).with_instruction_length 2
  return (some instr, ls)

/-- Lines 952-958, `case 0xF1` (`POP AF`). -/
def case_0xF1 (memory : Memory) (ls : Locals) : Except Fault (Option Instruction × Locals) := do
  let (instr, ls) := PopInstruction (.moved .regAF) ls
  let instr := (instr.with_cycles 12).with_instruction_length 1
  return (some instr, ls)

/-- Lines 959-968, `case 0xF2` (`LD A,($FF00+C)`). -/
def case_0xF2 (memory : Memory) (ls : Locals) : Except Fault (Option Instruction × Locals) := do
  let derefWith := get_ref_with_signed_offset memory (← star (ls.byte .regC))
  let t ← memory.deref derefWith 0
  let (instr, ls) := LoadByteInstruction (.moved .regA) (.temporary t) ls
  let instr := (instr.with_cycles 8).with_instruction_length 1
  return (some instr, ls)

/-- Lines 969-977, `case 0xF3` to `case 0xF5` (`PUSH AF`). -/
def case_0xF5 (memory : Memory) (ls : Locals) : Except Fault (Option Instruction × Locals) := do
  let (instr, ls) := PushInstruction (.moved .regAF) ls
  let instr := (instr.with_cycles 16).with_instruction_length 1
  return (some instr, ls)

/-- Lines 978-988, `case 0xF6` to `case 0xF8` (`LS HL,SP+r8`). -/
def case_0xF8 (memory : Memory) (ls : Locals) : Except Fault (Option Instruction × Locals) := do
  let effectiveAddress : Int :=
    (((← star (ls.word .stackPointerRef)).read16 memory : Nat) +
      int8_t ((← star (ls.byte .immediateByteRef)).read8 memory)) % 65536
  let (instr, ls) :=
    LoadWordInstruction (.temporary (memory.get_word_ref effectiveAddress)) (.moved .regHL) ls
  let instr := (instr.with_cycles 12).with_instruction_length 2
  return (some instr, ls)

/-- Lines 989-996, `case 0xF9` (`LD SP,HL`). -/
def case_0xF9 (memory : Memory) (ls : Locals) : Except Fault (Option Instruction × Locals) := do
  let (instr, ls) := LoadWordInstruction (.moved .regHL) (.moved .stackPointerRef) ls
  let instr := (instr.with_cycles 8).with_instruction_length 1
  return (some instr, ls)

/-- Lines 997-1004, `case 0xFA` (`LD A,(nn)`). -/
def case_0xFA (memory : Memory) (ls : Locals) : Except Fault (Option Instruction × Locals) := do
  let t ← memory.deref (ls.word .immediateWordRef) 0
  let (instr, ls) := LoadByteInstruction (.temporary t) (.moved .regA) ls
  let instr := (instr.with_cycles 16).with_instruction_length 3
  return (some instr, ls)

/-- Lines 1005-1010, `case 0xFB` to `case 0xFF`: `abort()`. -/
def case_0xFF (_memory : Memory) (_ls : Locals) : Except Fault (Option Instruction × Locals) :=
  .error .abort

/-- The `switch` of `interpret_next_instruction` (lines 48-1011). -/
def switch_blocks : List CaseBlock := [
  CaseBlock.mk [0x00, 0x01] case_0x01,
  CaseBlock.mk [0x02] case_0x02,
  CaseBlock.mk [0x03, 0x04, 0x05, 0x06] case_0x06,
  CaseBlock.mk [0x07, 0x08] case_0x08,
  CaseBlock.mk [0x09, 0x0A] case_0x0A,
  CaseBlock.mk [0x0B, 0x0C, 0x0D, 0x0E] case_0x0E,
  CaseBlock.mk [0x0F, 0x10, 0x11] case_0x11,
  CaseBlock.mk [0x12] case_0x12,
  CaseBlock.mk [0x13, 0x14, 0x15, 0x16] case_0x16,
  CaseBlock.mk [0x17, 0x18, 0x19, 0x1A] case_0x1A,
  CaseBlock.mk [0x1B, 0x1C, 0x1D, 0x1E] case_0x1E,
  CaseBlock.mk [0x1F, 0x20, 0x21] case_0x21,
  CaseBlock.mk [0x22] case_0x22,
  CaseBlock.mk [0x23, 0x24, 0x25, 0x26] case_0x26,
  CaseBlock.mk [0x27, 0x28, 0x29, 0x2A] case_0x2A,
  CaseBlock.mk [0x2B, 0x2C, 0x2D, 0x2E] case_0x2E,
  CaseBlock.mk [0x2F, 0x30, 0x31] case_0x31,
  CaseBlock.mk [0x32] case_0x32,
  CaseBlock.mk [0x33, 0x34, 0x35, 0x36] case_0x36,
  CaseBlock.mk [0x37, 0x38, 0x39, 0x3A] case_0x3A,
  CaseBlock.mk [0x3B, 0x3C, 0x3D, 0x3E] case_0x3E,
  CaseBlock.mk [0x3F, 0x40] case_0x40,
  CaseBlock.mk [0x41] case_0x41,
  CaseBlock.mk [0x42] case_0x42,
  CaseBlock.mk [0x43] case_0x43,
  CaseBlock.mk [0x44] case_0x44,
  CaseBlock.mk [0x45] case_0x45,
  CaseBlock.mk [0x46] case_0x46,
  CaseBlock.mk [0x47] case_0x47,
  CaseBlock.mk [0x48] case_0x48,
  CaseBlock.mk [0x49] case_0x49,
  CaseBlock.mk [0x4A] case_0x4A,
  CaseBlock.mk [0x4B] case_0x4B,
  CaseBlock.mk [0x4C] case_0x4C,
  CaseBlock.mk [0x4D] case_0x4D,
  CaseBlock.mk [0x4E] case_0x4E,
  CaseBlock.mk [0x4F] case_0x4F,
  CaseBlock.mk [0x50] case_0x50,
  CaseBlock.mk [0x51] case_0x51,
  CaseBlock.mk [0x52] case_0x52,
  CaseBlock.mk [0x53] case_0x53,
  CaseBlock.mk [0x54] case_0x54,
  CaseBlock.mk [0x55] case_0x55,
  CaseBlock.mk [0x56] case_0x56,
  CaseBlock.mk [0x57] case_0x57,
  CaseBlock.mk [0x58] case_0x58,
  CaseBlock.mk [0x59] case_0x59,
  CaseBlock.mk [0x5A] case_0x5A,
  CaseBlock.mk [0x5B] case_0x5B,
  CaseBlock.mk [0x5C] case_0x5C,
  CaseBlock.mk [0x5D] case_0x5D,
  CaseBlock.mk [0x5E] case_0x5E,
  CaseBlock.mk [0x5F] case_0x5F,
  CaseBlock.mk [0x60] case_0x60,
  CaseBlock.mk [0x61] case_0x61,
  CaseBlock.mk [0x62] case_0x62,
  CaseBlock.mk [0x63] case_0x63,
  CaseBlock.mk [0x64] case_0x64,
  CaseBlock.mk [0x65] case_0x65,
  CaseBlock.mk [0x66] case_0x66,
  CaseBlock.mk [0x67] case_0x67,
  CaseBlock.mk [0x68] case_0x68,
  CaseBlock.mk [0x69] case_0x69,
  CaseBlock.mk [0x6A] case_0x6A,
  CaseBlock.mk [0x6B] case_0x6B,
  CaseBlock.mk [0x6C] case_0x6C,
  CaseBlock.mk [0x6D] case_0x6D,
  CaseBlock.mk [0x6E] case_0x6E,
  CaseBlock.mk [0x6F] case_0x6F,
  CaseBlock.mk [0x70] case_0x70,
  CaseBlock.mk [0x71] case_0x71,
  CaseBlock.mk [0x72] case_0x72,
  CaseBlock.mk [0x73] case_0x73,
  CaseBlock.mk [0x74] case_0x74,
  CaseBlock.mk [0x75] case_0x75,
  CaseBlock.mk [0x76, 0x77] case_0x77,
  CaseBlock.mk [0x78] case_0x78,
  CaseBlock.mk [0x79] case_0x79,
  CaseBlock.mk [0x7A] case_0x7A,
  CaseBlock.mk [0x7B] case_0x7B,
  CaseBlock.mk [0x7C] case_0x7C,
  CaseBlock.mk [0x7D] case_0x7D,
  CaseBlock.mk [0x7E] case_0x7E,
  CaseBlock.mk [0x7F] case_0x7F,
  CaseBlock.mk [0x80, 0x81, 0x82, 0x83, 0x84, 0x85, 0x86, 0x87, 0x88, 0x89, 0x8A, 0x8B, 0x8C, 0x8D, 0x8E,
    0x8F, 0x90, 0x91, 0x92, 0x93, 0x94, 0x95, 0x96, 0x97, 0x98, 0x99, 0x9A, 0x9B, 0x9C, 0x9D,
    0x9E, 0x9F, 0xA0, 0xA1, 0xA2, 0xA3, 0xA4, 0xA5, 0xA6, 0xA7, 0xA8, 0xA9, 0xAA, 0xAB, 0xAC,
    0xAD, 0xAE, 0xAF, 0xB0, 0xB1, 0xB2, 0xB3, 0xB4, 0xB5, 0xB6, 0xB7, 0xB8, 0xB9, 0xBA, 0xBB,
    0xBC, 0xBD, 0xBE, 0xBF, 0xC0, 0xC1] case_0xC1,
  CaseBlock.mk [0xC2, 0xC3, 0xC4, 0xC5] case_0xC5,
  CaseBlock.mk [0xC6, 0xC7, 0xC8, 0xC9, 0xCA, 0xCB, 0xCC, 0xCD, 0xCE, 0xCF, 0xD0, 0xD1] case_0xD1,
  CaseBlock.mk [0xD2, 0xD3, 0xD4, 0xD5] case_0xD5,
  CaseBlock.mk [0xD6, 0xD7, 0xD8, 0xD9, 0xDA, 0xDB, 0xDC, 0xDD, 0xDE, 0xDF, 0xE0] case_0xE0,
  CaseBlock.mk [0xE1] case_0xE1,
  CaseBlock.mk [0xE2] case_0xE2,
  CaseBlock.mk [0xE3, 0xE4, 0xE5] case_0xE5,
  CaseBlock.mk [0xE6, 0xE7, 0xE8, 0xE9, 0xEA] case_0xEA,
  CaseBlock.mk [0xEB, 0xEC, 0xED, 0xEE, 0xEF, 0xF0] case_0xF0,
  CaseBlock.mk [0xF1] case_0xF1,
  CaseBlock.mk [0xF2] case_0xF2,
  CaseBlock.mk [0xF3, 0xF4, 0xF5] case_0xF5,
  CaseBlock.mk [0xF6, 0xF7, 0xF8] case_0xF8,
  CaseBlock.mk [0xF9] case_0xF9,
  CaseBlock.mk [0xFA] case_0xFA,
  CaseBlock.mk [0xFB, 0xFC, 0xFD, 0xFE, 0xFF] case_0xFF]

/-- Run the blocks in source order from an entry block on: a block without `return` is followed
by the next one. Leaving the `switch` reaches the trailing `abort()` (line 1013). -/
def run_blocks : List CaseBlock → Memory → Locals → Except Fault Instruction
  | [], _, _ => .error .abort
  | blk :: rest, memory, ls =>
    match blk.body memory ls with
    | .error fault => .error fault
    | .ok (some instr, _) => .ok instr
    | .ok (none, ls) => run_blocks rest memory ls

/-- The statement `switch (nextByteValue)`: jump to the block that carries the label. -/
def switch_on : List CaseBlock → Nat → Memory → Locals → Except Fault Instruction
  | [], _, _, _ => .error .abort
  | blk :: rest, nextByteValue, memory, ls =>
    if blk.labels.contains nextByteValue then run_blocks (blk :: rest) memory ls
    else switch_on rest nextByteValue memory ls


/-- `interpret_next_instruction` (lines 23-1015). -/
def interpret_next_instruction (memory : Memory) : Except Fault Instruction :=
  let programCounterRef := memory.get_word_register .PC
  (memory.deref programCounterRef 0).bind fun opcodeRef =>
  (star opcodeRef).bind fun opcodeCell =>
  let nextByteValue := opcodeCell.read8 memory
  let regA := memory.get_register .A
  let regB := memory.get_register .B
  let regC := memory.get_register .C
  let regD := memory.get_register .D
  let regE := memory.get_register .E
  let regH := memory.get_register .H
  let regL := memory.get_register .L
  let regAF := memory.get_word_register .AF
  let regBC := memory.get_word_register .BC
  let regDE := memory.get_word_register .DE
  let regHL := memory.get_word_register .HL
  let stackPointerRef := memory.get_word_register .SP
  (memory.deref programCounterRef 1).bind fun immediateByteRef =>
  (memory.deref_word programCounterRef 1).bind fun immediateWordRef =>
  let ls : Locals :=
    { byte := fun x => match x with
        | .regA => regA | .regB => regB | .regC => regC | .regD => regD | .regE => regE
        | .regH => regH | .regL => regL | .immediateByteRef => immediateByteRef
      word := fun x => match x with
        | .programCounterRef => programCounterRef | .regAF => regAF | .regBC => regBC
        | .regDE => regDE | .regHL => regHL | .stackPointerRef => stackPointerRef
        | .immediateWordRef => immediateWordRef }
  switch_on switch_blocks nextByteValue memory ls

/-! ## The fetch-execute cycle and the vocabulary of the claims -/

/-- Modelled from the spec: one cycle of the run loop (§2): decode the instruction at the program
counter, then execute it. -/
def CPU.decode_and_execute (cpu : CPU) : Except Fault CPU :=
  (interpret_next_instruction cpu.m_memory).bind fun instr => instr.execute cpu

/-- Every operand handle of the operation is present (no null pointer). -/
def Operation.handles_present : Operation → Bool
  | .LoadByte m_fromRef m_toRef => m_fromRef.isSome && m_toRef.isSome
  | .LoadWord m_fromRef m_toRef => m_fromRef.isSome && m_toRef.isSome
  | .Push m_fromRef => m_fromRef.isSome
  | .Pop m_toRef => m_toRef.isSome

/-- The instruction is fully initialised: its effect has every operand handle, and its cycle
cost and length are set. -/
def Instruction.fully_initialised (i : Instruction) : Bool :=
  i.operation.handles_present && i.m_cycles.isSome && i.m_numBytes.isSome

/-- The locals of `interpret_next_instruction` when the `switch` is entered. -/
def decode_locals (m : Memory) : Locals :=
  { byte := fun x => match x with
      | .regA => some (.register .A) | .regB => some (.register .B)
      | .regC => some (.register .C) | .regD => some (.register .D)
      | .regE => some (.register .E) | .regH => some (.register .H)
      | .regL => some (.register .L)
      | .immediateByteRef => some (.memory ((m.pc + 1) % 65536))
    word := fun x => match x with
      | .programCounterRef => some (.register .PC) | .regAF => some (.register .AF)
      | .regBC => some (.register .BC) | .regDE => some (.register .DE)
      | .regHL => some (.register .HL) | .stackPointerRef => some (.register .SP)
      | .immediateWordRef => some (.memory ((m.pc + 1) % 65536)) }

/-- The operand list `[B, C, D, E, H, L, (HL), A]` of the `LD r,r′` table, by operand number;
`(HL)` is the memory byte at the address held in HL. -/
def ld_operand (m : Memory) : Nat → ByteAddressable
  | 0 => .register .B
  | 1 => .register .C
  | 2 => .register .D
  | 3 => .register .E
  | 4 => .register .H
  | 5 => .register .L
  | 6 => .memory ((WordAddressable.register .HL).read16 m)
  | _ => .register .A

/-- A concrete machine state: A = 0x05, BC = 0x1234, HL = 0xC000, SP = 0xFFFE, PC = 0x0100, the
three given bytes at 0x0100, 0x0101, 0x0102 and zero elsewhere. -/
def example_state (op i1 i2 : Nat) : Memory :=
  { a := 0x05, f := 0, b := 0x12, c := 0x34, d := 0, e := 0, h := 0xC0, l := 0,
    sp := 0xFFFE, pc := 0x100,
    mem := fun x => if x = 0x100 then op else if x = 0x101 then i1 else if x = 0x102 then i2
      else 0 }

/-- The state `example_state op i1 i2` with another stack pointer. -/
def example_state_with_sp (op i1 i2 sp : Nat) : Memory :=
  { example_state op i1 i2 with sp := sp }

/-- A property of every suffix of the block list: of the blocks that run from each entry. -/
def on_suffixes (P : List CaseBlock → Prop) : List CaseBlock → Prop
  | [] => P []
  | blk :: rest => P (blk :: rest) ∧ on_suffixes P rest

/-- The zero-page address of an offset byte `b`, in the claim's words: 0xFF00 + b when
b < 0x80 and 0xFF00 + b - 256 when b >= 0x80. -/
def zero_page_address (b : Nat) : Nat :=
  if b < 0x80 then 0xFF00 + b else 0xFF00 + b - 256

/-- The state `example_state op i1 i2` with another register C and another byte at one more
address. -/
def example_state_with_c_and_byte (op i1 i2 c addr v : Nat) : Memory :=
  { example_state op i1 i2 with
    c := c
    mem := fun x => if x = addr then v else (example_state op i1 i2).mem x }

/-- The destination of the 16-bit immediate loads 0x01, 0x11, 0x21 and 0x31 of the table:
BC, DE, HL and SP. -/
def ld16_destination (op : Nat) : WordRegister :=
  if op = 0x01 then .BC else if op = 0x11 then .DE else if op = 0x21 then .HL else .SP

/-- The load of register B into register A with cycle cost 4 and no length set yet, an
instruction to configure and execute in examples. -/
def example_instruction : Instruction :=
  { operation := .LoadByte (some (.register .B)) (some (.register .A)), m_cycles := some 4 }

/-- The cycle cost is one of 4, 8, 12, 16. -/
def is_table_cycle_cost : Option Nat → Bool
  | some 4 => true
  | some 8 => true
  | some 12 => true
  | some 16 => true
  | _ => false

/-- The instruction length is 1, 2 or 3 bytes. -/
def is_table_length : Option Nat → Bool
  | some 1 => true
  | some 2 => true
  | some 3 => true
  | _ => false

/-- A decoder result is an instruction with a cycle cost and a length of the table, or the
unimplemented-opcode signal. -/
def result_in_table : Except Fault Instruction → Bool
  | .ok instr => is_table_cycle_cost instr.m_cycles && is_table_length instr.m_numBytes
  | .error .abort => true
  | .error _ => false

/-- A run from an entry returns an instruction exactly when at least two blocks are left (the
last block is the `abort()` of 0xFB-0xFF), and signals unimplemented-opcode otherwise. -/
def returns_unless_last (blocks : List CaseBlock) : Except Fault Instruction → Bool
  | .ok _ => decide (2 ≤ blocks.length)
  | .error .abort => decide (blocks.length < 2)
  | .error _ => false

/-- The opcode of the next handler that returns, for the opcodes the claim lists: 0xC1 for
0x80-0xC0, 0x01 for 0x00, 0x77 for 0x76, 0x0A for 0x08 and 0xD1 for 0xC6-0xD0. -/
def next_handler (op : Nat) : Nat :=
  if 0x80 ≤ op ∧ op ≤ 0xC0 then 0xC1
  else if op = 0x00 then 0x01
  else if op = 0x76 then 0x77
  else if op = 0x08 then 0x0A
  else 0xD1

/-- The blocks that run from the label `v`: the entry of the `switch` and what follows it. -/
def entry_suffix (v : Nat) : List CaseBlock :=
  switch_blocks.dropWhile fun blk => !blk.labels.contains v

/-- The opcode of the handler at the head of a run of blocks: the last label in front of the
first block. -/
def head_handler (s : List CaseBlock) : Option Nat :=
  s.head?.bind fun blk => blk.labels.getLast?

/-- The handlers whose block has no `return` (lines 78-84, 166-175, 190-199, 221-230,
245-254). -/
def handlers_without_return : List Nat := [0x08, 0x22, 0x2A, 0x32, 0x3A]

/-- A run of blocks without its first block when that block has no `return`: the run from the
next handler that returns. -/
def skip_block_without_return (s : List CaseBlock) : List CaseBlock :=
  match s with
  | [] => []
  | blk :: rest =>
    if handlers_without_return.contains (blk.labels.getLast?.getD 0) then rest else blk :: rest

/-- The opcode of the next handler that returns, for the label `op`: the handler of the block
that `op` enters, or of the block after it when the entered block has no `return`. -/
def next_returning_handler (op : Nat) : Nat :=
  (head_handler (skip_block_without_return (entry_suffix op))).getD op

/-- The check of one label against the table of blocks: its next returning handler is a byte,
the `switch` enters that handler's block where the run from `op` is after skipping a block
without `return`, and, outside 0x37-0x3A, the block entered is not that of 0x3A. -/
def next_returning_handler_ok (op : Nat) : Bool :=
  decide (next_returning_handler op < 256)
    && decide ((entry_suffix (next_returning_handler op)).length
        = (skip_block_without_return (entry_suffix op)).length)
    && (decide (0x37 ≤ op ∧ op ≤ 0x3A)
        || decide (head_handler (entry_suffix op) ≠ some 0x3A))

/-! ## Lemmas on the embedding -/

/-- The decoder is the `switch` on the byte at PC, entered with `decode_locals`. -/
theorem interpret_eq (m : Memory) :
    interpret_next_instruction m
      = switch_on switch_blocks (m.byte_at m.pc) m (decode_locals m) := by
  simp [interpret_next_instruction, Memory.deref, Memory.deref_word, Memory.get_word_register,
    Memory.get_register, WordAddressable.read16, Except.bind, star, ByteAddressable.read8,
    Memory.byte_at, decode_locals]

/-- The tick loop leaves through its condition when the bound allows one evaluation more than
there are iterations left; it has then ticked once per remaining iteration. -/
theorem tick_loop_eq (fuel : Nat) :
    ∀ (cyclesTicked m_cycles : Nat) (cpu : CPU), 0 < fuel → m_cycles + 2 ≤ fuel + cyclesTicked →
      tick_loop fuel cyclesTicked m_cycles cpu
        = .ok { cpu with clock := cpu.clock + (m_cycles + 1 - cyclesTicked) } := by
  induction fuel with
  | zero => intro _ _ _ h; omega
  | succ n ih =>
    intro t c cpu _ hle
    unfold tick_loop
    by_cases htc : t ≤ c
    · rw [if_pos htc, ih (t + 1) c cpu.tick (by omega) (by omega)]
      simp only [CPU.tick]
      congr 2
      omega
    · rw [if_neg htc]
      have : c + 1 - t = 0 := by omega
      rw [this]
      rfl

/-- `tick_clock` of a configured instruction advances the clock by `m_cycles + 1`. -/
theorem tick_clock_eq (i : Instruction) (c : Nat) (cpu : CPU) (h : i.m_cycles = some c) :
    i.tick_clock cpu = .ok { cpu with clock := cpu.clock + (c + 1) } := by
  unfold Instruction.tick_clock
  rw [h]
  exact tick_loop_eq (c + 2) 0 c cpu (by omega) (by omega)

/-- Executing a configured instruction without post-operation actions whose operation succeeds:
the operation's state, with PC advanced by the length and the clock by `m_cycles + 1`. -/
theorem execute_eq (op : Operation) (c n : Nat) (cpu cpu1 : CPU)
    (h : op.perform_operation cpu = .ok cpu1) :
    ({ operation := op, m_cycles := some c, m_numBytes := some n,
       m_postOperationActions := [] } : Instruction).execute cpu
      = .ok { m_memory := { cpu1.m_memory with pc := (cpu1.m_memory.pc + n) % 65536 },
              clock := cpu1.clock + (c + 1) } := by
  simp [Instruction.execute, h, Except.bind, Instruction.move_program_counter,
    CPU.get_program_counter, Memory.get_word_register, WordAddressable.read16,
    WordAddressable.write16, tick_clock_eq _ c]

/-- Executing an instruction whose operation faults is that fault. -/
theorem execute_fault (i : Instruction) (cpu : CPU) (fault : Fault)
    (h : i.operation.perform_operation cpu = .error fault) :
    i.execute cpu = .error fault := by
  simp [Instruction.execute, h, Except.bind]

/-- A cycle is the execution of the decoded instruction. -/
theorem decode_and_execute_eq (cpu cpu1 : CPU) (instr : Instruction)
    (hd : interpret_next_instruction cpu.m_memory = .ok instr)
    (he : instr.execute cpu = .ok cpu1) : cpu.decode_and_execute = .ok cpu1 := by
  simp only [CPU.decode_and_execute, hd, Except.bind]
  exact he


/-- The concrete states are well-formed when their three bytes are. -/
theorem example_state_wf (op i1 i2 : Nat) (h0 : op < 256) (h1 : i1 < 256) (h2 : i2 < 256) :
    (example_state op i1 i2).WF := by
  refine ⟨?_, ?_, ?_, ?_, ?_, ?_, ?_, ?_, ?_, ?_, ?_⟩
  any_goals (simp only [example_state]; omega)
  intro addr
  simp only [example_state]
  split_ifs <;> omega

/-- Two runs of the `switch` agree when the runs from every entry agree. -/
theorem switch_on_congr (blocks : List CaseBlock) (v : Nat) (m1 m2 : Memory) (ls1 ls2 : Locals)
    (h : on_suffixes (fun s => run_blocks s m1 ls1 = run_blocks s m2 ls2) blocks) :
    switch_on blocks v m1 ls1 = switch_on blocks v m2 ls2 := by
  induction blocks with
  | nil => rfl
  | cons blk rest ih =>
    simp only [switch_on]
    split
    · exact h.1
    · exact ih h.2

/-- The address cell that `get_ref_with_signed_offset` and `deref` form from an offset byte is
the zero-page address of the claim. -/
theorem zero_page_cell (b : Nat) (hb : b < 256) :
    (((0xFF00 + int8_t b) % 65536).toNat + 0) % 65536 = zero_page_address b := by
  unfold int8_t zero_page_address
  split_ifs <;> omega

/-- The word that `get_ref_with_signed_offset` hands to `get_word_ref` is the zero-page address
of the claim. -/
theorem zero_page_value (b : Nat) (hb : b < 256) :
    ((0xFF00 + int8_t b) % 65536).toNat = zero_page_address b := by
  unfold int8_t zero_page_address
  split_ifs <;> omega

/-- Successive calls of `then` leave the operation and the configuration as they are and append
the actions in the order of the calls. -/
theorem foldl_then_eq (ps : List (Memory → Memory)) :
    ∀ i : Instruction, ps.foldl Instruction.then_ i
      = { i with m_postOperationActions := i.m_postOperationActions ++ ps } := by
  induction ps with
  | nil => intro i; simp
  | cons p ps ih =>
    intro i
    rw [List.foldl_cons, ih]
    simp [Instruction.then_]

/-- The loop over the post-operation actions changes the memory only, action after action. -/
theorem post_actions_eq (ps : List (Memory → Memory)) :
    ∀ cpu : CPU,
      ps.foldl (fun cpu postOp => { cpu with m_memory := postOp cpu.m_memory }) cpu
        = { cpu with m_memory := ps.foldl (fun m p => p m) cpu.m_memory } := by
  induction ps with
  | nil => intro cpu; rfl
  | cons p ps ih => intro cpu; rw [List.foldl_cons, ih]; rfl

/-- Executing a configured instruction whose operation succeeds: the operation's state, then the
post-operation actions in order, then PC advanced by the length and the clock by
`m_cycles + 1`. -/
theorem execute_general (i : Instruction) (c n : Nat) (cpu cpu1 : CPU)
    (hc : i.m_cycles = some c) (hn : i.m_numBytes = some n)
    (hop : i.operation.perform_operation cpu = .ok cpu1) :
    i.execute cpu
      = .ok { m_memory :=
                { i.m_postOperationActions.foldl (fun m p => p m) cpu1.m_memory with
                  pc := ((i.m_postOperationActions.foldl (fun m p => p m) cpu1.m_memory).pc + n)
                    % 65536 },
              clock := cpu1.clock + (c + 1) } := by
  simp [Instruction.execute, hop, hn, Except.bind, Instruction.move_program_counter,
    CPU.get_program_counter, Memory.get_word_register, WordAddressable.read16,
    WordAddressable.write16, fun cpu0 => tick_clock_eq i c cpu0 hc, post_actions_eq]

/-- The tick loop, when its bound allows one evaluation of the condition more than there are
iterations left, is `tick` iterated once per remaining iteration. -/
theorem tick_loop_iterate (fuel : Nat) :
    ∀ (cyclesTicked m_cycles : Nat) (cpu : CPU), 0 < fuel → m_cycles + 2 ≤ fuel + cyclesTicked →
      tick_loop fuel cyclesTicked m_cycles cpu
        = .ok (Nat.iterate CPU.tick (m_cycles + 1 - cyclesTicked) cpu) := by
  induction fuel with
  | zero => intro _ _ _ h; omega
  | succ k ih =>
    intro t c cpu _ hle
    unfold tick_loop
    by_cases htc : t ≤ c
    · rw [if_pos htc, ih (t + 1) c cpu.tick (by omega) (by omega)]
      have : c + 1 - t = (c + 1 - (t + 1)) + 1 := by omega
      rw [this, Function.iterate_succ_apply]
    · rw [if_neg htc]
      have : c + 1 - t = 0 := by omega
      rw [this]
      rfl

/-- The `switch` runs the blocks from the first one that carries the label. -/
theorem switch_on_eq_run_blocks (blocks : List CaseBlock) (v : Nat) (memory : Memory)
    (ls : Locals) :
    switch_on blocks v memory ls
      = run_blocks (blocks.dropWhile fun blk => !blk.labels.contains v) memory ls := by
  induction blocks with
  | nil => rfl
  | cons blk rest ih =>
    rw [switch_on, List.dropWhile_cons]
    cases h : blk.labels.contains v
    · simp only [Bool.false_eq_true, if_false, Bool.not_false, if_true]
      exact ih
    · simp only [if_true, Bool.not_true, Bool.false_eq_true, if_false]

/-- What holds of every suffix holds of the suffix that `dropWhile` leaves. -/
theorem on_suffixes_dropWhile (P : List CaseBlock → Prop) (f : CaseBlock → Bool)
    (blocks : List CaseBlock) (h : on_suffixes P blocks) : P (blocks.dropWhile f) := by
  induction blocks with
  | nil => exact h
  | cons blk rest ih =>
    simp only [List.dropWhile]
    split
    · exact ih h.2
    · exact h.1

/-- From every entry of the `switch`, with the locals of the decoder, the run returns an
instruction with a cycle cost and a length of the table unless the entry is the last block,
which signals unimplemented-opcode. -/
theorem decode_suffixes (m : Memory) :
    on_suffixes (fun s => result_in_table (run_blocks s m (decode_locals m)) = true
      ∧ returns_unless_last s (run_blocks s m (decode_locals m)) = true) switch_blocks := by
  simp only [switch_blocks, on_suffixes]
  repeat' apply And.intro
  all_goals rfl

set_option maxRecDepth 100000 in
/-- A byte value enters the `switch` at least two blocks before its end exactly when it is at
most 0xFA. -/
theorem entry_before_last_block : ∀ op < 256,
    decide (2 ≤ (switch_blocks.dropWhile fun blk => !blk.labels.contains op).length)
      = decide (op ≤ 0xFA) := by
  decide

/-- The cycle costs that `is_table_cycle_cost` accepts. -/
theorem is_table_cycle_cost_iff (c : Option Nat) (h : is_table_cycle_cost c = true) :
    c = some 4 ∨ c = some 8 ∨ c = some 12 ∨ c = some 16 := by
  unfold is_table_cycle_cost at h
  split at h <;> simp_all

/-- The lengths that `is_table_length` accepts. -/
theorem is_table_length_iff (n : Option Nat) (h : is_table_length n = true) :
    n = some 1 ∨ n = some 2 ∨ n = some 3 := by
  unfold is_table_length at h
  split at h <;> simp_all

/-- A load between two registers writes the destination register only; PC advances by the
length. -/
theorem register_load_frame (rs rd : Register) (c n : Nat) (cpu : CPU) :
    ∃ cpu1, ({ operation := .LoadByte (some (.register rs)) (some (.register rd)),
               m_cycles := some c, m_numBytes := some n,
               m_postOperationActions := [] } : Instruction).execute cpu = .ok cpu1
      ∧ (∀ r : Register, r ≠ rd →
          (ByteAddressable.register r).read8 cpu1.m_memory
            = (ByteAddressable.register r).read8 cpu.m_memory)
      ∧ (ByteAddressable.register rd).read8 cpu1.m_memory
          = (ByteAddressable.register rs).read8 cpu.m_memory % 256
      ∧ cpu1.m_memory.sp = cpu.m_memory.sp
      ∧ cpu1.m_memory.mem = cpu.m_memory.mem
      ∧ cpu1.m_memory.pc = (cpu.m_memory.pc + n) % 65536 := by
  refine ⟨_, execute_eq _ c n cpu _ rfl, ?_, ?_, ?_, ?_, ?_⟩
  · intro r hr
    cases rd <;> cases r <;> first
      | exact absurd rfl hr
      | rfl
  · cases rd <;> rfl
  · cases rd <;> rfl
  · cases rd <;> rfl
  · cases rd <;> rfl

/-- The decoder in a state whose byte at PC has been set to `t` switches on `t`. -/
theorem interpret_set_opcode (m : Memory) (t : Nat) (ht : t < 256) :
    interpret_next_instruction (m.set_byte m.pc t)
      = switch_on switch_blocks t (m.set_byte m.pc t) (decode_locals (m.set_byte m.pc t)) := by
  rw [interpret_eq]
  have : (m.set_byte m.pc t).byte_at (m.set_byte m.pc t).pc = t := by
    simp [Memory.set_byte, Memory.byte_at, Nat.mod_eq_of_lt ht]
  rw [this]

set_option maxRecDepth 100000 in
/-- Every byte value passes the check of its next returning handler. -/
theorem next_returning_handler_table : ∀ op < 256, next_returning_handler_ok op = true := by
  decide

/-- Two states with the same PC, the same bytes at PC+1 and PC+2 and the same B, C, D, E, H, L
and SP give the same run from every entry of the `switch`. -/
theorem decode_suffixes_agree (m1 m2 : Memory)
    (hpc : m1.pc = m2.pc)
    (h1 : m1.byte_at (m1.pc + 1) = m2.byte_at (m2.pc + 1))
    (h2 : m1.byte_at (m1.pc + 2) = m2.byte_at (m2.pc + 2))
    (hb : m1.b = m2.b) (hc : m1.c = m2.c) (hd : m1.d = m2.d) (he : m1.e = m2.e)
    (hh : m1.h = m2.h) (hl : m1.l = m2.l) (hsp : m1.sp = m2.sp) :
    on_suffixes (fun s => run_blocks s m1 (decode_locals m1) = run_blocks s m2 (decode_locals m2))
      switch_blocks := by
  simp only [Memory.byte_at] at h1 h2
  obtain ⟨a1, f1, b1, c1, d1, e1, hh1, l1, sp1, pc1, mem1⟩ := m1
  obtain ⟨a2, f2, b2, c2, d2, e2, hh2, l2, sp2, pc2, mem2⟩ := m2
  simp only at hpc hb hc hd he hh hl hsp h1 h2
  subst hpc hb hc hd he hh hl hsp
  simp only [switch_blocks, on_suffixes]
  repeat' apply And.intro
  all_goals first
    | rfl
    | ((conv => lhs; whnf); (conv => rhs; whnf);
        simp [LoadByteInstruction, LoadWordInstruction, Locals.take_byte, Locals.take_word,
          Instruction.with_cycles, Instruction.with_instruction_length, Memory.deref,
          Memory.get_word_ref, get_ref_with_signed_offset, star, WordAddressable.read16,
          ByteAddressable.read8, Memory.byte_at, bind, Except.bind, pure, Except.pure,
          decode_locals, h1, h2, Nat.add_assoc])

/-- From every entry other than the block of 0x3A, the run is the run from the next handler
that returns: a block without `return` hands over locals that the following block does not
use. -/
theorem run_skips_block_without_return (m : Memory) :
    on_suffixes (fun s => head_handler s ≠ some 0x3A →
      run_blocks s m (decode_locals m)
        = run_blocks (skip_block_without_return s) m (decode_locals m)) switch_blocks := by
  simp only [switch_blocks, on_suffixes]
  repeat' apply And.intro
  all_goals first
    | (intro _; rfl)
    | (intro h; exact absurd rfl h)

/-- Two suffixes of one list that have the same length are the same. -/
theorem suffix_eq_of_length_eq (s1 s2 l : List CaseBlock) (h1 : s1 <:+ l) (h2 : s2 <:+ l)
    (hlen : s1.length = s2.length) : s1 = s2 := by
  rw [List.suffix_iff_eq_drop] at h1 h2
  rw [h1, h2, hlen]

/-- Skipping a block leaves a suffix. -/
theorem skip_block_without_return_suffix (s : List CaseBlock) :
    skip_block_without_return s <:+ s := by
  unfold skip_block_without_return
  split
  · exact List.suffix_refl _
  · split
    · exact List.suffix_cons _ _
    · exact List.suffix_refl _

/-! ## The claims -/

/-- C1 (fails on the code): with the byte 0x3A at PC the decoder returns an instruction that is
not fully initialised. The block of 0x3A moves `regA` into an instruction it does not return,
and the block of 0x3E, which control runs into, builds the returned load from the null pointer
left behind: its destination handle is absent, while cycle cost and length are set. -/
theorem C1_opcode_0x3A_destination_absent (m : Memory) (h : m.byte_at m.pc = 0x3A) :
    interpret_next_instruction m
        = .ok { operation := .LoadByte (some (.memory ((m.pc + 1) % 65536))) none,
                m_cycles := some 8, m_numBytes := some 1, m_postOperationActions := [] }
      ∧ ∃ instr, interpret_next_instruction m = .ok instr
          ∧ instr.fully_initialised = false := by
  rw [interpret_eq, h]
  exact ⟨rfl, _, rfl, rfl⟩

/-- Witness of C1 at the state `example_state 0x3A 0 0`. -/
theorem C1_opcode_0x3A_destination_absent_witness :
    (example_state 0x3A 0 0).byte_at (example_state 0x3A 0 0).pc = 0x3A
      ∧ (interpret_next_instruction (example_state 0x3A 0 0)
          = .ok { operation := .LoadByte (some (.memory (((example_state 0x3A 0 0).pc + 1)
                    % 65536))) none,
                  m_cycles := some 8, m_numBytes := some 1, m_postOperationActions := [] }
        ∧ ∃ instr, interpret_next_instruction (example_state 0x3A 0 0) = .ok instr
            ∧ instr.fully_initialised = false) :=
  ⟨by decide, C1_opcode_0x3A_destination_absent (example_state 0x3A 0 0) (by decide)⟩

/-- C2 (fails on the code): for every ALU opcode 0x80-0xBF at PC the decoder does not signal the
unimplemented-opcode condition; it returns the instruction built by the handler of 0xC1
(POP BC, cycle cost 12, length 1), into which the labels run. -/
theorem C2_alu_opcodes_return_pop_bc (m : Memory)
    (h : 0x80 ≤ m.byte_at m.pc ∧ m.byte_at m.pc ≤ 0xBF) :
    interpret_next_instruction m
        = .ok { operation := .Pop (some (.register .BC)),
                m_cycles := some 12, m_numBytes := some 1, m_postOperationActions := [] }
      ∧ interpret_next_instruction m ≠ .error .abort := by
  rw [interpret_eq]
  obtain ⟨h1, h2⟩ := h
  generalize m.byte_at m.pc = op at h1 h2
  have key : switch_on switch_blocks op m (decode_locals m)
      = .ok { operation := .Pop (some (.register .BC)),
              m_cycles := some 12, m_numBytes := some 1, m_postOperationActions := [] } := by
    interval_cases op <;> rfl
  rw [key]
  exact ⟨rfl, fun hc => Except.noConfusion hc⟩

/-- Witness of C2 at the state `example_state 0x80 0 0` (opcode 0x80, ADD A,B). -/
theorem C2_alu_opcodes_return_pop_bc_witness :
    (0x80 ≤ (example_state 0x80 0 0).byte_at (example_state 0x80 0 0).pc
        ∧ (example_state 0x80 0 0).byte_at (example_state 0x80 0 0).pc ≤ 0xBF)
      ∧ (interpret_next_instruction (example_state 0x80 0 0)
          = .ok { operation := .Pop (some (.register .BC)),
                  m_cycles := some 12, m_numBytes := some 1, m_postOperationActions := [] }
        ∧ interpret_next_instruction (example_state 0x80 0 0) ≠ .error .abort) :=
  ⟨by decide, C2_alu_opcodes_return_pop_bc (example_state 0x80 0 0) (by decide)⟩

/-- C3 (fails on the code): with the byte 0x75 (`LD (HL),L`) at PC the decoder returns the
load-byte instruction whose source is register B, operand number 0 of the list, and not
register L, operand number 0x75 mod 8 = 5; the destination is the byte at HL. -/
theorem C3_opcode_0x75_source_is_B (m : Memory) (h : m.byte_at m.pc = 0x75) :
    interpret_next_instruction m
        = .ok { operation := .LoadByte (some (ld_operand m 0))
                  (some (.memory (((WordAddressable.register .HL).read16 m + 0) % 65536))),
                m_cycles := some 8, m_numBytes := some 1, m_postOperationActions := [] }
      ∧ ld_operand m 0 ≠ ld_operand m (0x75 % 8) := by
  rw [interpret_eq, h]
  refine ⟨rfl, ?_⟩
  show ByteAddressable.register Register.B ≠ ByteAddressable.register Register.L
  decide

/-- Witness of C3 at the state `example_state 0x75 0 0`. -/
theorem C3_opcode_0x75_source_is_B_witness :
    (example_state 0x75 0 0).byte_at (example_state 0x75 0 0).pc = 0x75
      ∧ (interpret_next_instruction (example_state 0x75 0 0)
          = .ok { operation := .LoadByte (some (ld_operand (example_state 0x75 0 0) 0))
                    (some (.memory (((WordAddressable.register .HL).read16
                      (example_state 0x75 0 0) + 0) % 65536))),
                  m_cycles := some 8, m_numBytes := some 1, m_postOperationActions := [] }
        ∧ ld_operand (example_state 0x75 0 0) 0 ≠ ld_operand (example_state 0x75 0 0) (0x75 % 8)) :=
  ⟨by decide, C3_opcode_0x75_source_is_B (example_state 0x75 0 0) (by decide)⟩

/-- C4 (fails on the code): with the byte 0x06 (`LD B,n`) at PC the decoder passes `regB` as the
source and the immediate byte as the destination. Executing the instruction leaves register B as
it was and stores B in the byte at PC+1; PC advances by 2 and the cycle cost is 8. -/
theorem C4_opcode_0x06_stores_B_in_immediate (cpu : CPU)
    (h : cpu.m_memory.byte_at cpu.m_memory.pc = 0x06) :
    interpret_next_instruction cpu.m_memory
        = .ok { operation := .LoadByte (some (.register .B))
                  (some (.memory ((cpu.m_memory.pc + 1) % 65536))),
                m_cycles := some 8, m_numBytes := some 2, m_postOperationActions := [] }
      ∧ ∃ cpu1, cpu.decode_and_execute = .ok cpu1
          ∧ cpu1.m_memory.b = cpu.m_memory.b
          ∧ cpu1.m_memory.byte_at (cpu.m_memory.pc + 1) = cpu.m_memory.b % 256
          ∧ cpu1.m_memory.pc = (cpu.m_memory.pc + 2) % 65536 := by
  have key : interpret_next_instruction cpu.m_memory
        = .ok { operation := .LoadByte (some (.register .B))
                  (some (.memory ((cpu.m_memory.pc + 1) % 65536))),
                m_cycles := some 8, m_numBytes := some 2, m_postOperationActions := [] } := by
    rw [interpret_eq, h]; rfl
  refine ⟨key, ?_⟩
  simp only [CPU.decode_and_execute, key, Except.bind]
  rw [execute_eq (.LoadByte (some (.register .B))
    (some (.memory ((cpu.m_memory.pc + 1) % 65536)))) 8 2 cpu _ rfl]
  refine ⟨_, rfl, rfl, ?_, rfl⟩
  simp [ByteAddressable.write8, ByteAddressable.read8, Memory.set_byte, Memory.byte_at]

/-- Witness of C4 at the state `example_state 0x06 0x42 0` (B = 0x12, immediate byte 0x42):
register B is still 0x12 afterwards, not 0x42. -/
theorem C4_opcode_0x06_stores_B_in_immediate_witness :
    (example_state 0x06 0x42 0).byte_at (example_state 0x06 0x42 0).pc = 0x06
      ∧ (example_state 0x06 0x42 0).byte_at ((example_state 0x06 0x42 0).pc + 1) = 0x42
      ∧ (example_state 0x06 0x42 0).b = 0x12
      ∧ ∃ cpu1, CPU.decode_and_execute ⟨example_state 0x06 0x42 0, 0⟩ = .ok cpu1
          ∧ cpu1.m_memory.b = 0x12
          ∧ cpu1.m_memory.byte_at ((example_state 0x06 0x42 0).pc + 1) = 0x12 % 256
          ∧ cpu1.m_memory.pc = ((example_state 0x06 0x42 0).pc + 2) % 65536 :=
  ⟨by decide, by decide, rfl,
    (C4_opcode_0x06_stores_B_in_immediate ⟨example_state 0x06 0x42 0, 0⟩ (by decide)).2⟩

/-- C5 (fails on the code): the block of 0x22 (`LD (HL+),A`) has no `return`, so with the byte
0x22 at PC the decoder returns the instruction of the block of 0x26 (`LD H,n`): source register
H, destination the byte at PC+1, cycle cost 8, length 2, no post-operation action. Executing it
leaves HL as it was and changes no memory byte other than the one at PC+1. -/
theorem C5_opcode_0x22_runs_into_0x26 (cpu : CPU)
    (h : cpu.m_memory.byte_at cpu.m_memory.pc = 0x22) :
    interpret_next_instruction cpu.m_memory
        = .ok { operation := .LoadByte (some (.register .H))
                  (some (.memory ((cpu.m_memory.pc + 1) % 65536))),
                m_cycles := some 8, m_numBytes := some 2, m_postOperationActions := [] }
      ∧ ∃ cpu1, cpu.decode_and_execute = .ok cpu1
          ∧ (WordAddressable.register .HL).read16 cpu1.m_memory
              = (WordAddressable.register .HL).read16 cpu.m_memory
          ∧ (∀ addr, addr % 65536 ≠ (cpu.m_memory.pc + 1) % 65536 →
              cpu1.m_memory.byte_at addr = cpu.m_memory.byte_at addr)
          ∧ cpu1.m_memory.pc = (cpu.m_memory.pc + 2) % 65536 := by
  have key : interpret_next_instruction cpu.m_memory
        = .ok { operation := .LoadByte (some (.register .H))
                  (some (.memory ((cpu.m_memory.pc + 1) % 65536))),
                m_cycles := some 8, m_numBytes := some 2, m_postOperationActions := [] } := by
    rw [interpret_eq, h]; rfl
  refine ⟨key, ?_⟩
  simp only [CPU.decode_and_execute, key, Except.bind]
  rw [execute_eq (.LoadByte (some (.register .H))
    (some (.memory ((cpu.m_memory.pc + 1) % 65536)))) 8 2 cpu _ rfl]
  refine ⟨_, rfl, rfl, ?_, rfl⟩
  intro addr haddr
  simp [ByteAddressable.write8, ByteAddressable.read8, Memory.set_byte, Memory.byte_at, haddr]

/-- Witness of C5 at the state `example_state 0x22 0 0` (HL = 0xC000, A = 0x05): afterwards HL
is still 0xC000 and the byte at 0xC000 is still 0. -/
theorem C5_opcode_0x22_runs_into_0x26_witness :
    (example_state 0x22 0 0).byte_at (example_state 0x22 0 0).pc = 0x22
      ∧ (WordAddressable.register .HL).read16 (example_state 0x22 0 0) = 0xC000
      ∧ (example_state 0x22 0 0).a = 0x05
      ∧ (example_state 0x22 0 0).byte_at 0xC000 = 0
      ∧ ∃ cpu1, CPU.decode_and_execute ⟨example_state 0x22 0 0, 0⟩ = .ok cpu1
          ∧ (WordAddressable.register .HL).read16 cpu1.m_memory
              = (WordAddressable.register .HL).read16 (example_state 0x22 0 0)
          ∧ (∀ addr, addr % 65536 ≠ ((example_state 0x22 0 0).pc + 1) % 65536 →
              cpu1.m_memory.byte_at addr = (example_state 0x22 0 0).byte_at addr)
          ∧ cpu1.m_memory.pc = ((example_state 0x22 0 0).pc + 2) % 65536 :=
  ⟨by decide, by decide, rfl, by decide,
    (C5_opcode_0x22_runs_into_0x26 ⟨example_state 0x22 0 0, 0⟩ (by decide)).2⟩

/-- C7 (fails on the code): with the byte 0xEA (`LD (a16),A`) at PC the decoder returns the load
of A into the byte at the immediate address with cycle cost 8 and length 1. Executing it writes
A there, but advances PC by 1, not by 3. -/
theorem C7_opcode_0xEA_advances_pc_by_1 (cpu : CPU)
    (h : cpu.m_memory.byte_at cpu.m_memory.pc = 0xEA) :
    interpret_next_instruction cpu.m_memory
        = .ok { operation := .LoadByte (some (.register .A))
                  (some (.memory (((WordAddressable.memory ((cpu.m_memory.pc + 1) % 65536)).read16
                    cpu.m_memory + 0) % 65536))),
                m_cycles := some 8, m_numBytes := some 1, m_postOperationActions := [] }
      ∧ ∃ cpu1, cpu.decode_and_execute = .ok cpu1
          ∧ cpu1.m_memory.byte_at
              ((WordAddressable.memory ((cpu.m_memory.pc + 1) % 65536)).read16 cpu.m_memory)
              = cpu.m_memory.a % 256
          ∧ cpu1.m_memory.pc = (cpu.m_memory.pc + 1) % 65536 := by
  have key : interpret_next_instruction cpu.m_memory
        = .ok { operation := .LoadByte (some (.register .A))
                  (some (.memory (((WordAddressable.memory ((cpu.m_memory.pc + 1) % 65536)).read16
                    cpu.m_memory + 0) % 65536))),
                m_cycles := some 8, m_numBytes := some 1, m_postOperationActions := [] } := by
    rw [interpret_eq, h]; rfl
  refine ⟨key, ?_⟩
  simp only [CPU.decode_and_execute, key, Except.bind]
  rw [execute_eq (.LoadByte (some (.register .A))
    (some (.memory (((WordAddressable.memory ((cpu.m_memory.pc + 1) % 65536)).read16
      cpu.m_memory + 0) % 65536)))) 8 1 cpu _ rfl]
  refine ⟨_, rfl, ?_, rfl⟩
  simp [ByteAddressable.write8, ByteAddressable.read8, Memory.set_byte, Memory.byte_at]

/-- Witness of C7 at the state `example_state 0xEA 0x50 0xC0` (PC = 0x0100, immediate word
0xC050, A = 0x05): afterwards PC is 0x0101. -/
theorem C7_opcode_0xEA_advances_pc_by_1_witness :
    (example_state 0xEA 0x50 0xC0).byte_at (example_state 0xEA 0x50 0xC0).pc = 0xEA
      ∧ (WordAddressable.memory (((example_state 0xEA 0x50 0xC0).pc + 1) % 65536)).read16
          (example_state 0xEA 0x50 0xC0) = 0xC050
      ∧ ((example_state 0xEA 0x50 0xC0).pc + 1) % 65536 = 0x0101
      ∧ ∃ cpu1, CPU.decode_and_execute ⟨example_state 0xEA 0x50 0xC0, 0⟩ = .ok cpu1
          ∧ cpu1.m_memory.byte_at
              ((WordAddressable.memory (((example_state 0xEA 0x50 0xC0).pc + 1) % 65536)).read16
                (example_state 0xEA 0x50 0xC0))
              = (example_state 0xEA 0x50 0xC0).a % 256
          ∧ cpu1.m_memory.pc = ((example_state 0xEA 0x50 0xC0).pc + 1) % 65536 :=
  ⟨by decide, by decide, by decide,
    (C7_opcode_0xEA_advances_pc_by_1 ⟨example_state 0xEA 0x50 0xC0, 0⟩ (by decide)).2⟩

/-- C8 (fails on the code): for each same-register move 0x40, 0x49, 0x52, 0x5B, 0x64, 0x6D,
0x7F at PC, the decoder moves one local into both operands, so the returned load has its source
handle and a null destination (cycle cost 4, length 1); executing it dereferences the null
pointer and yields no state. -/
theorem C8_same_register_move_null_destination (cpu : CPU)
    (h : cpu.m_memory.byte_at cpu.m_memory.pc ∈ [0x40, 0x49, 0x52, 0x5B, 0x64, 0x6D, 0x7F]) :
    (∃ r, interpret_next_instruction cpu.m_memory
        = .ok { operation := .LoadByte (some (.register r)) none,
                m_cycles := some 4, m_numBytes := some 1, m_postOperationActions := [] })
      ∧ cpu.decode_and_execute = .error .null_dereference := by
  have key : ∃ r, interpret_next_instruction cpu.m_memory
        = .ok { operation := .LoadByte (some (.register r)) none,
                m_cycles := some 4, m_numBytes := some 1, m_postOperationActions := [] } := by
    rw [interpret_eq]
    simp only [List.mem_cons, List.mem_singleton, List.not_mem_nil, or_false] at h
    rcases h with h | h | h | h | h | h | h <;> rw [h] <;> exact ⟨_, rfl⟩
  refine ⟨key, ?_⟩
  obtain ⟨r, hr⟩ := key
  simp only [CPU.decode_and_execute, hr, Except.bind]
  exact execute_fault _ cpu _ rfl

/-- Witness of C8 at the state `example_state 0x40 0 0` (opcode 0x40, `LD B,B`). -/
theorem C8_same_register_move_null_destination_witness :
    (example_state 0x40 0 0).byte_at (example_state 0x40 0 0).pc
        ∈ [0x40, 0x49, 0x52, 0x5B, 0x64, 0x6D, 0x7F]
      ∧ (∃ r, interpret_next_instruction (example_state 0x40 0 0)
          = .ok { operation := .LoadByte (some (.register r)) none,
                  m_cycles := some 4, m_numBytes := some 1, m_postOperationActions := [] })
      ∧ CPU.decode_and_execute ⟨example_state 0x40 0 0, 0⟩ = .error .null_dereference :=
  ⟨by decide, C8_same_register_move_null_destination ⟨example_state 0x40 0 0, 0⟩ (by decide)⟩

/-- C9 (fails on the code): the label of 0x76 (HALT) stands in front of the block of 0x77, so
with the byte 0x76 at PC the decoder does not signal the unimplemented-opcode condition; it
returns the instruction of `LD (HL),A` (cycle cost 8, length 1). -/
theorem C9_opcode_0x76_returns_ld_hl_a (m : Memory) (h : m.byte_at m.pc = 0x76) :
    interpret_next_instruction m
        = .ok { operation := .LoadByte (some (.register .A))
                  (some (.memory (((WordAddressable.register .HL).read16 m + 0) % 65536))),
                m_cycles := some 8, m_numBytes := some 1, m_postOperationActions := [] }
      ∧ interpret_next_instruction m ≠ .error .abort := by
  have key : interpret_next_instruction m
        = .ok { operation := .LoadByte (some (.register .A))
                  (some (.memory (((WordAddressable.register .HL).read16 m + 0) % 65536))),
                m_cycles := some 8, m_numBytes := some 1, m_postOperationActions := [] } := by
    rw [interpret_eq, h]; rfl
  rw [key]
  exact ⟨rfl, fun hc => Except.noConfusion hc⟩

/-- Witness of C9 at the state `example_state 0x76 0 0`. -/
theorem C9_opcode_0x76_returns_ld_hl_a_witness :
    (example_state 0x76 0 0).byte_at (example_state 0x76 0 0).pc = 0x76
      ∧ (interpret_next_instruction (example_state 0x76 0 0)
          = .ok { operation := .LoadByte (some (.register .A))
                    (some (.memory (((WordAddressable.register .HL).read16
                      (example_state 0x76 0 0) + 0) % 65536))),
                  m_cycles := some 8, m_numBytes := some 1, m_postOperationActions := [] }
        ∧ interpret_next_instruction (example_state 0x76 0 0) ≠ .error .abort) :=
  ⟨by decide, C9_opcode_0x76_returns_ld_hl_a (example_state 0x76 0 0) (by decide)⟩

/-- C6: push/pop round trip. In a well-formed state with BC = v, SP = s and the byte 0xC5
(PUSH BC) at PC, the cycle leaves SP = (s - 2) mod 65536, the low byte of v at address SP and the
high byte at SP + 1; when the byte then at PC is 0xD1 (POP DE), the next cycle leaves DE = v and
SP = s. -/
theorem C6_push_bc_pop_de_round_trip (cpu : CPU)
    (hwf : cpu.m_memory.WF) (h : cpu.m_memory.byte_at cpu.m_memory.pc = 0xC5)
    (hnext : ∀ cpu1, cpu.decode_and_execute = .ok cpu1 →
      cpu1.m_memory.byte_at cpu1.m_memory.pc = 0xD1) :
    ∃ cpu1 cpu2, cpu.decode_and_execute = .ok cpu1
      ∧ cpu1.m_memory.sp = (cpu.m_memory.sp + 65536 - 2) % 65536
      ∧ cpu1.m_memory.byte_at cpu1.m_memory.sp
          = (WordAddressable.register .BC).read16 cpu.m_memory % 256
      ∧ cpu1.m_memory.byte_at (cpu1.m_memory.sp + 1)
          = (WordAddressable.register .BC).read16 cpu.m_memory / 256
      ∧ cpu1.decode_and_execute = .ok cpu2
      ∧ (WordAddressable.register .DE).read16 cpu2.m_memory
          = (WordAddressable.register .BC).read16 cpu.m_memory
      ∧ cpu2.m_memory.sp = cpu.m_memory.sp := by
  have key1 : interpret_next_instruction cpu.m_memory
      = .ok { operation := .Push (some (.register .BC)),
              m_cycles := some 16, m_numBytes := some 1, m_postOperationActions := [] } := by
    rw [interpret_eq, h]; rfl
  have e1 := execute_eq (.Push (some (.register .BC))) 16 1 cpu _ rfl
  obtain ⟨cpu1, hcpu1, d1⟩ : ∃ cpu1, cpu1 = _ ∧ cpu.decode_and_execute = .ok cpu1 :=
    ⟨_, rfl, decode_and_execute_eq cpu _ _ key1 e1⟩
  clear e1
  have h2 := hnext cpu1 d1
  have key2 : interpret_next_instruction cpu1.m_memory
      = .ok { operation := .Pop (some (.register .DE)),
              m_cycles := some 12, m_numBytes := some 1, m_postOperationActions := [] } := by
    rw [interpret_eq, h2]; rfl
  have e2 := execute_eq (.Pop (some (.register .DE))) 12 1 cpu1 _ rfl
  have d2 := decode_and_execute_eq cpu1 _ _ key2 e2
  obtain ⟨ha, hf, hb, hc, hd, he, hh, hl, hsp, hpc, hmem⟩ := hwf
  refine ⟨cpu1, _, d1, ?_, ?_, ?_, d2, ?_, ?_⟩
  · subst hcpu1
    simp [WordAddressable.write16, WordAddressable.read16, Memory.set_byte, Memory.byte_at,
      CPU.get_stack_pointer, Memory.get_word_register]
  · subst hcpu1
    simp [WordAddressable.write16, WordAddressable.read16, Memory.set_byte, Memory.byte_at,
      CPU.get_stack_pointer, Memory.get_word_register]
    intro hx
    omega
  · subst hcpu1
    simp [WordAddressable.write16, WordAddressable.read16, Memory.set_byte, Memory.byte_at,
      CPU.get_stack_pointer, Memory.get_word_register]
    omega
  · subst hcpu1
    simp [WordAddressable.write16, WordAddressable.read16, Memory.set_byte, Memory.byte_at,
      CPU.get_stack_pointer, Memory.get_word_register]
    split_ifs <;> omega
  · subst hcpu1
    simp [WordAddressable.write16, WordAddressable.read16, Memory.set_byte, Memory.byte_at,
      CPU.get_stack_pointer, Memory.get_word_register]
    omega

/-- Witness of C6 at BC = 0x1234, SP = 0xFFFE, with the bytes 0xC5, 0xD1 at PC = 0x0100. -/
theorem C6_push_bc_pop_de_round_trip_witness :
    (example_state 0xC5 0xD1 0).WF
      ∧ (example_state 0xC5 0xD1 0).byte_at (example_state 0xC5 0xD1 0).pc = 0xC5
      ∧ (WordAddressable.register .BC).read16 (example_state 0xC5 0xD1 0) = 0x1234
      ∧ (example_state 0xC5 0xD1 0).sp = 0xFFFE
      ∧ ∃ cpu1 cpu2, CPU.decode_and_execute ⟨example_state 0xC5 0xD1 0, 0⟩ = .ok cpu1
          ∧ cpu1.m_memory.sp = ((example_state 0xC5 0xD1 0).sp + 65536 - 2) % 65536
          ∧ cpu1.m_memory.byte_at cpu1.m_memory.sp
              = (WordAddressable.register .BC).read16 (example_state 0xC5 0xD1 0) % 256
          ∧ cpu1.m_memory.byte_at (cpu1.m_memory.sp + 1)
              = (WordAddressable.register .BC).read16 (example_state 0xC5 0xD1 0) / 256
          ∧ cpu1.decode_and_execute = .ok cpu2
          ∧ (WordAddressable.register .DE).read16 cpu2.m_memory
              = (WordAddressable.register .BC).read16 (example_state 0xC5 0xD1 0)
          ∧ cpu2.m_memory.sp = (example_state 0xC5 0xD1 0).sp :=
  ⟨example_state_wf 0xC5 0xD1 0 (by decide) (by decide) (by decide), by decide, by decide, rfl,
    C6_push_bc_pop_de_round_trip ⟨example_state 0xC5 0xD1 0, 0⟩
      (example_state_wf 0xC5 0xD1 0 (by decide) (by decide) (by decide)) (by decide)
      (fun cpu1 h1 => by
        have e : cpu1 = _ := (Except.ok.inj ((show CPU.decode_and_execute
          ⟨example_state 0xC5 0xD1 0, 0⟩ = .ok _ from rfl).symm.trans h1)).symm
        subst e
        decide)⟩

/-- C10, counterexample: the states `example_state 0xF8 0x02 0` and
`example_state_with_sp 0xF8 0x02 0 0xFFF0` have the same PC and the same bytes at PC, PC+1 and
PC+2 and differ in SP only, and the decoder returns different instructions for them: the source
of the load is the word SP + 2 computed while decoding, 0x0000 for one and 0xFFF2 for the
other. -/
theorem C10_counterexample_decoder_reads_sp :
    (example_state 0xF8 0x02 0).pc = (example_state_with_sp 0xF8 0x02 0 0xFFF0).pc
      ∧ (example_state 0xF8 0x02 0).byte_at (example_state 0xF8 0x02 0).pc
          = (example_state_with_sp 0xF8 0x02 0 0xFFF0).byte_at (example_state 0xF8 0x02 0).pc
      ∧ (example_state 0xF8 0x02 0).byte_at ((example_state 0xF8 0x02 0).pc + 1)
          = (example_state_with_sp 0xF8 0x02 0 0xFFF0).byte_at
              ((example_state 0xF8 0x02 0).pc + 1)
      ∧ (example_state 0xF8 0x02 0).byte_at ((example_state 0xF8 0x02 0).pc + 2)
          = (example_state_with_sp 0xF8 0x02 0 0xFFF0).byte_at
              ((example_state 0xF8 0x02 0).pc + 2)
      ∧ (interpret_next_instruction (example_state 0xF8 0x02 0)).toOption.map (·.operation)
          = some (.LoadWord (some (.value 0x0000)) (some (.register .HL)))
      ∧ (interpret_next_instruction (example_state_with_sp 0xF8 0x02 0 0xFFF0)).toOption.map
            (·.operation)
          = some (.LoadWord (some (.value 0xFFF2)) (some (.register .HL)))
      ∧ interpret_next_instruction (example_state 0xF8 0x02 0)
          ≠ interpret_next_instruction (example_state_with_sp 0xF8 0x02 0 0xFFF0) := by
  refine ⟨rfl, by decide, by decide, by decide, by decide, by decide, fun hc => ?_⟩
  have hop := congrArg (fun r => r.toOption.map (·.operation)) hc
  revert hop
  decide

/-- C10, amended: the decoder's result is a function of PC, of the bytes at PC, PC+1 and PC+2,
and of the registers B, C, D, E, H, L and SP, which it reads while it resolves operands: two
states that agree on these (and may differ in A, F and any other memory) decode to the same
instruction or the same fault. -/
theorem C10_decoder_function_of_bytes_and_registers (m1 m2 : Memory)
    (hpc : m1.pc = m2.pc)
    (h0 : m1.byte_at m1.pc = m2.byte_at m2.pc)
    (h1 : m1.byte_at (m1.pc + 1) = m2.byte_at (m2.pc + 1))
    (h2 : m1.byte_at (m1.pc + 2) = m2.byte_at (m2.pc + 2))
    (hb : m1.b = m2.b) (hc : m1.c = m2.c) (hd : m1.d = m2.d) (he : m1.e = m2.e)
    (hh : m1.h = m2.h) (hl : m1.l = m2.l) (hsp : m1.sp = m2.sp) :
    interpret_next_instruction m1 = interpret_next_instruction m2 := by
  rw [interpret_eq, interpret_eq, ← h0]
  simp only [Memory.byte_at] at h1 h2
  obtain ⟨a1, f1, b1, c1, d1, e1, hh1, l1, sp1, pc1, mem1⟩ := m1
  obtain ⟨a2, f2, b2, c2, d2, e2, hh2, l2, sp2, pc2, mem2⟩ := m2
  simp only at hpc hb hc hd he hh hl hsp h1 h2
  subst hpc hb hc hd he hh hl hsp
  apply switch_on_congr
  simp only [switch_blocks, on_suffixes]
  repeat' apply And.intro
  all_goals first
    | rfl
    | ((conv => lhs; whnf); (conv => rhs; whnf);
        simp [LoadByteInstruction, LoadWordInstruction, Locals.take_byte, Locals.take_word,
          Instruction.with_cycles, Instruction.with_instruction_length, Memory.deref,
          Memory.get_word_ref, get_ref_with_signed_offset, star, WordAddressable.read16,
          ByteAddressable.read8, Memory.byte_at, bind, Except.bind, pure, Except.pure,
          decode_locals, h1, h2, Nat.add_assoc])

/-- Witness of the amended C10: `example_state 0xF8 0x02 0` and the same state with A = 0x77
agree on everything the decoder reads. -/
theorem C10_decoder_function_of_bytes_and_registers_witness :
    interpret_next_instruction (example_state 0xF8 0x02 0)
      = interpret_next_instruction { example_state 0xF8 0x02 0 with a := 0x77 } :=
  C10_decoder_function_of_bytes_and_registers (example_state 0xF8 0x02 0)
    { example_state 0xF8 0x02 0 with a := 0x77 } rfl rfl rfl rfl rfl rfl rfl rfl rfl rfl rfl

/-- C11 (fails on the code): the two C-indexed zero-page transfers have the direction of each
other. With the byte 0xE2 (`LD ($FF00+C),A`) at PC the decoder passes the memory byte as source
and `regA` as destination: the cycle loads A from the zero-page byte and changes no memory. With
the byte 0xF2 (`LD A,($FF00+C)`) at PC it passes `regA` as source: the cycle stores A in the
zero-page byte and leaves A as it was. Both have cycle cost 8 and length 1. -/
theorem C11_c_indexed_transfers_swapped (cpuE cpuF : CPU)
    (hE : cpuE.m_memory.byte_at cpuE.m_memory.pc = 0xE2) (hEc : cpuE.m_memory.c < 256)
    (hF : cpuF.m_memory.byte_at cpuF.m_memory.pc = 0xF2) (hFc : cpuF.m_memory.c < 256) :
    (interpret_next_instruction cpuE.m_memory
        = .ok { operation := .LoadByte (some (.memory (zero_page_address cpuE.m_memory.c)))
                  (some (.register .A)),
                m_cycles := some 8, m_numBytes := some 1, m_postOperationActions := [] }
      ∧ ∃ cpu1, cpuE.decode_and_execute = .ok cpu1
          ∧ cpu1.m_memory.a = cpuE.m_memory.byte_at (zero_page_address cpuE.m_memory.c) % 256
          ∧ cpu1.m_memory.mem = cpuE.m_memory.mem)
    ∧ (interpret_next_instruction cpuF.m_memory
        = .ok { operation := .LoadByte (some (.register .A))
                  (some (.memory (zero_page_address cpuF.m_memory.c))),
                m_cycles := some 8, m_numBytes := some 1, m_postOperationActions := [] }
      ∧ ∃ cpu1, cpuF.decode_and_execute = .ok cpu1
          ∧ cpu1.m_memory.a = cpuF.m_memory.a
          ∧ cpu1.m_memory.byte_at (zero_page_address cpuF.m_memory.c)
              = cpuF.m_memory.a % 256) := by
  have keyE : interpret_next_instruction cpuE.m_memory
        = .ok { operation := .LoadByte
                  (some (.memory ((((0xFF00 + int8_t cpuE.m_memory.c) % 65536).toNat + 0)
                    % 65536)))
                  (some (.register .A)),
                m_cycles := some 8, m_numBytes := some 1, m_postOperationActions := [] } := by
    rw [interpret_eq, hE]; rfl
  have keyF : interpret_next_instruction cpuF.m_memory
        = .ok { operation := .LoadByte (some (.register .A))
                  (some (.memory ((((0xFF00 + int8_t cpuF.m_memory.c) % 65536).toNat + 0)
                    % 65536))),
                m_cycles := some 8, m_numBytes := some 1, m_postOperationActions := [] } := by
    rw [interpret_eq, hF]; rfl
  rw [zero_page_cell _ hEc] at keyE
  rw [zero_page_cell _ hFc] at keyF
  refine ⟨⟨keyE, _, decode_and_execute_eq cpuE _ _ keyE (execute_eq _ 8 1 cpuE _ rfl), ?_, ?_⟩,
    ⟨keyF, _, decode_and_execute_eq cpuF _ _ keyF (execute_eq _ 8 1 cpuF _ rfl), ?_, ?_⟩⟩
  · simp [ByteAddressable.write8, ByteAddressable.read8]
  · simp [ByteAddressable.write8]
  · simp [ByteAddressable.write8, ByteAddressable.read8, Memory.set_byte]
  · simp [ByteAddressable.write8, ByteAddressable.read8, Memory.set_byte, Memory.byte_at]

/-- Witness of C11 at C = 0x10, A = 0x05 and the byte 0x77 at 0xFF10: after 0xE2, A is 0x77 and
the memory is as before; after 0xF2, A is still 0x05 and the byte at 0xFF10 is 0x05. -/
theorem C11_c_indexed_transfers_swapped_witness :
    zero_page_address 0x10 = 0xFF10
      ∧ (example_state_with_c_and_byte 0xE2 0 0 0x10 0xFF10 0x77).byte_at 0xFF10 = 0x77
      ∧ (example_state_with_c_and_byte 0xE2 0 0 0x10 0xFF10 0x77).a = 0x05
      ∧ (∃ cpu1, CPU.decode_and_execute
            ⟨example_state_with_c_and_byte 0xE2 0 0 0x10 0xFF10 0x77, 0⟩ = .ok cpu1
          ∧ cpu1.m_memory.a
              = (example_state_with_c_and_byte 0xE2 0 0 0x10 0xFF10 0x77).byte_at
                  (zero_page_address
                    (example_state_with_c_and_byte 0xE2 0 0 0x10 0xFF10 0x77).c) % 256
          ∧ cpu1.m_memory.mem = (example_state_with_c_and_byte 0xE2 0 0 0x10 0xFF10 0x77).mem)
      ∧ (∃ cpu1, CPU.decode_and_execute
            ⟨example_state_with_c_and_byte 0xF2 0 0 0x10 0xFF10 0x77, 0⟩ = .ok cpu1
          ∧ cpu1.m_memory.a = (example_state_with_c_and_byte 0xF2 0 0 0x10 0xFF10 0x77).a
          ∧ cpu1.m_memory.byte_at (zero_page_address
                (example_state_with_c_and_byte 0xF2 0 0 0x10 0xFF10 0x77).c)
              = (example_state_with_c_and_byte 0xF2 0 0 0x10 0xFF10 0x77).a % 256) :=
  have h := C11_c_indexed_transfers_swapped
    ⟨example_state_with_c_and_byte 0xE2 0 0 0x10 0xFF10 0x77, 0⟩
    ⟨example_state_with_c_and_byte 0xF2 0 0 0x10 0xFF10 0x77, 0⟩
    (by decide) (by decide) (by decide) (by decide)
  ⟨by decide, by decide, rfl, h.1.2, h.2.2⟩

/-- C12: zero-page address arithmetic. For an offset byte b, `get_ref_with_signed_offset` yields
the address 0xFF00 + b when b < 0x80 and 0xFF00 + b - 256 when b >= 0x80, which lies in
0xFE80..0xFF7F. With the byte 0xE0 at PC and b at PC+1 the cycle writes A to the memory byte at
that address; with 0xF0 it reads A from it; each instruction has cycle cost 12 and length 2. -/
theorem C12_zero_page_address_and_ldh (b : Nat) (hb : b < 256) (cpuE cpuF : CPU)
    (hEwf : cpuE.m_memory.WF) (hE : cpuE.m_memory.byte_at cpuE.m_memory.pc = 0xE0)
    (hEb : cpuE.m_memory.byte_at (cpuE.m_memory.pc + 1) = b)
    (hFwf : cpuF.m_memory.WF) (hF : cpuF.m_memory.byte_at cpuF.m_memory.pc = 0xF0)
    (hFb : cpuF.m_memory.byte_at (cpuF.m_memory.pc + 1) = b) :
    (∀ (mem : Memory) (offsetRef : ByteAddressable), offsetRef.read8 mem = b →
        get_ref_with_signed_offset mem offsetRef = some (.value (zero_page_address b)))
    ∧ (0xFE80 ≤ zero_page_address b ∧ zero_page_address b ≤ 0xFF7F)
    ∧ (interpret_next_instruction cpuE.m_memory
        = .ok { operation := .LoadByte (some (.register .A))
                  (some (.memory (zero_page_address b))),
                m_cycles := some 12, m_numBytes := some 2, m_postOperationActions := [] }
      ∧ ∃ cpu1, cpuE.decode_and_execute = .ok cpu1
          ∧ cpu1.m_memory.byte_at (zero_page_address b) = cpuE.m_memory.a
          ∧ cpu1.m_memory.a = cpuE.m_memory.a)
    ∧ (interpret_next_instruction cpuF.m_memory
        = .ok { operation := .LoadByte (some (.memory (zero_page_address b)))
                  (some (.register .A)),
                m_cycles := some 12, m_numBytes := some 2, m_postOperationActions := [] }
      ∧ ∃ cpu1, cpuF.decode_and_execute = .ok cpu1
          ∧ cpu1.m_memory.a = cpuF.m_memory.byte_at (zero_page_address b)
          ∧ cpu1.m_memory.mem = cpuF.m_memory.mem) := by
  have hEb1 : cpuE.m_memory.byte_at ((cpuE.m_memory.pc + 1) % 65536) = b := by
    simpa [Memory.byte_at] using hEb
  have hFb1 : cpuF.m_memory.byte_at ((cpuF.m_memory.pc + 1) % 65536) = b := by
    simpa [Memory.byte_at] using hFb
  have keyE : interpret_next_instruction cpuE.m_memory
        = .ok { operation := .LoadByte (some (.register .A))
                  (some (.memory ((((0xFF00 + int8_t (cpuE.m_memory.byte_at
                    ((cpuE.m_memory.pc + 1) % 65536))) % 65536).toNat + 0) % 65536))),
                m_cycles := some 12, m_numBytes := some 2, m_postOperationActions := [] } := by
    rw [interpret_eq, hE]; rfl
  have keyF : interpret_next_instruction cpuF.m_memory
        = .ok { operation := .LoadByte
                  (some (.memory ((((0xFF00 + int8_t (cpuF.m_memory.byte_at
                    ((cpuF.m_memory.pc + 1) % 65536))) % 65536).toNat + 0) % 65536)))
                  (some (.register .A)),
                m_cycles := some 12, m_numBytes := some 2, m_postOperationActions := [] } := by
    rw [interpret_eq, hF]; rfl
  rw [hEb1, zero_page_cell _ hb] at keyE
  rw [hFb1, zero_page_cell _ hb] at keyF
  have hrange : 0xFE80 ≤ zero_page_address b ∧ zero_page_address b ≤ 0xFF7F := by
    unfold zero_page_address
    split_ifs <;> omega
  refine ⟨?_, hrange,
    ⟨keyE, _, decode_and_execute_eq cpuE _ _ keyE (execute_eq _ 12 2 cpuE _ rfl), ?_, ?_⟩,
    ⟨keyF, _, decode_and_execute_eq cpuF _ _ keyF (execute_eq _ 12 2 cpuF _ rfl), ?_, ?_⟩⟩
  · intro mem offsetRef hread
    simp only [get_ref_with_signed_offset, Memory.get_word_ref, hread, zero_page_value _ hb]
  · have ha := hEwf.a_lt
    have hz : zero_page_address b % 65536 = zero_page_address b := by omega
    simp [ByteAddressable.write8, ByteAddressable.read8, Memory.set_byte, Memory.byte_at, hz]
    omega
  · simp [ByteAddressable.write8, Memory.set_byte]
  · have hm := hFwf.mem_lt (zero_page_address b % 65536)
    simp [ByteAddressable.write8, ByteAddressable.read8, Memory.byte_at]
    omega
  · simp [ByteAddressable.write8]

/-- Witness of C12 at the offset byte 0x90 (address 0xFF00 + 0x90 - 256 = 0xFE90). -/
theorem C12_zero_page_address_and_ldh_witness :
    zero_page_address 0x90 = 0xFE90
    ∧ (∀ (mem : Memory) (offsetRef : ByteAddressable), offsetRef.read8 mem = 0x90 →
        get_ref_with_signed_offset mem offsetRef = some (.value (zero_page_address 0x90)))
    ∧ (0xFE80 ≤ zero_page_address 0x90 ∧ zero_page_address 0x90 ≤ 0xFF7F)
    ∧ (interpret_next_instruction (example_state 0xE0 0x90 0)
        = .ok { operation := .LoadByte (some (.register .A))
                  (some (.memory (zero_page_address 0x90))),
                m_cycles := some 12, m_numBytes := some 2, m_postOperationActions := [] }
      ∧ ∃ cpu1, CPU.decode_and_execute ⟨example_state 0xE0 0x90 0, 0⟩ = .ok cpu1
          ∧ cpu1.m_memory.byte_at (zero_page_address 0x90) = (example_state 0xE0 0x90 0).a
          ∧ cpu1.m_memory.a = (example_state 0xE0 0x90 0).a)
    ∧ (interpret_next_instruction (example_state 0xF0 0x90 0)
        = .ok { operation := .LoadByte (some (.memory (zero_page_address 0x90)))
                  (some (.register .A)),
                m_cycles := some 12, m_numBytes := some 2, m_postOperationActions := [] }
      ∧ ∃ cpu1, CPU.decode_and_execute ⟨example_state 0xF0 0x90 0, 0⟩ = .ok cpu1
          ∧ cpu1.m_memory.a = (example_state 0xF0 0x90 0).byte_at (zero_page_address 0x90)
          ∧ cpu1.m_memory.mem = (example_state 0xF0 0x90 0).mem) :=
  ⟨by decide, C12_zero_page_address_and_ldh 0x90 (by decide)
    ⟨example_state 0xE0 0x90 0, 0⟩ ⟨example_state 0xF0 0x90 0, 0⟩
    (example_state_wf 0xE0 0x90 0 (by decide) (by decide) (by decide)) (by decide) (by decide)
    (example_state_wf 0xF0 0x90 0 (by decide) (by decide) (by decide)) (by decide) (by decide)⟩

/-- C13: with the byte 0xF8 at PC, SP = s and the immediate byte b at PC+1, in a well-formed
state, the cycle sets HL to (s + b) mod 65536 when b < 0x80 and to (s + b - 256) mod 65536 when
b >= 0x80, leaves SP as it was and advances PC by 2; the instruction's cycle cost is 12. -/
theorem C13_ld_hl_sp_plus_r8 (cpu : CPU) (hwf : cpu.m_memory.WF)
    (h : cpu.m_memory.byte_at cpu.m_memory.pc = 0xF8) :
    ∃ instr cpu1, interpret_next_instruction cpu.m_memory = .ok instr
      ∧ instr.m_cycles = some 12
      ∧ cpu.decode_and_execute = .ok cpu1
      ∧ (cpu.m_memory.byte_at (cpu.m_memory.pc + 1) < 0x80 →
          (WordAddressable.register .HL).read16 cpu1.m_memory
            = (cpu.m_memory.sp + cpu.m_memory.byte_at (cpu.m_memory.pc + 1)) % 65536)
      ∧ (0x80 ≤ cpu.m_memory.byte_at (cpu.m_memory.pc + 1) →
          (((WordAddressable.register .HL).read16 cpu1.m_memory : Nat) : Int)
            = ((cpu.m_memory.sp : Int) + cpu.m_memory.byte_at (cpu.m_memory.pc + 1) - 256)
                % 65536)
      ∧ cpu1.m_memory.sp = cpu.m_memory.sp
      ∧ cpu1.m_memory.pc = (cpu.m_memory.pc + 2) % 65536 := by
  have key : interpret_next_instruction cpu.m_memory
        = .ok { operation := .LoadWord
                  (some (.value ((((cpu.m_memory.sp : Nat) : Int)
                    + int8_t (cpu.m_memory.byte_at ((cpu.m_memory.pc + 1) % 65536)))
                      % 65536 % 65536).toNat))
                  (some (.register .HL)),
                m_cycles := some 12, m_numBytes := some 2, m_postOperationActions := [] } := by
    rw [interpret_eq, h]; rfl
  have hb1 : cpu.m_memory.byte_at ((cpu.m_memory.pc + 1) % 65536)
      = cpu.m_memory.byte_at (cpu.m_memory.pc + 1) := by
    simp [Memory.byte_at]
  rw [hb1] at key
  have hblt : cpu.m_memory.byte_at (cpu.m_memory.pc + 1) < 256 := hwf.mem_lt _
  have hsp := hwf.sp_lt
  refine ⟨_, _, key, rfl, decode_and_execute_eq cpu _ _ key (execute_eq _ 12 2 cpu _ rfl),
    ?_, ?_, rfl, rfl⟩
  · intro hlt
    simp only [WordAddressable.write16, WordAddressable.read16, int8_t]
    generalize cpu.m_memory.byte_at (cpu.m_memory.pc + 1) = b at hlt hblt
    generalize cpu.m_memory.sp = s at hsp
    have hif : b % 256 < 128 := by omega
    simp only [hif, if_true]
    omega
  · intro hge
    simp only [WordAddressable.write16, WordAddressable.read16, int8_t]
    generalize cpu.m_memory.byte_at (cpu.m_memory.pc + 1) = b at hge hblt
    generalize cpu.m_memory.sp = s at hsp
    have hif : ¬ b % 256 < 128 := by omega
    simp only [hif, if_false]
    omega

/-- Witness of C13 at SP = 0xFFFE and the immediate byte 0x02. -/
theorem C13_ld_hl_sp_plus_r8_witness :
    (example_state 0xF8 0x02 0).sp = 0xFFFE
      ∧ (example_state 0xF8 0x02 0).byte_at ((example_state 0xF8 0x02 0).pc + 1) = 0x02
      ∧ ∃ instr cpu1, interpret_next_instruction (example_state 0xF8 0x02 0) = .ok instr
        ∧ instr.m_cycles = some 12
        ∧ CPU.decode_and_execute ⟨example_state 0xF8 0x02 0, 0⟩ = .ok cpu1
        ∧ ((example_state 0xF8 0x02 0).byte_at ((example_state 0xF8 0x02 0).pc + 1) < 0x80 →
            (WordAddressable.register .HL).read16 cpu1.m_memory
              = ((example_state 0xF8 0x02 0).sp
                  + (example_state 0xF8 0x02 0).byte_at ((example_state 0xF8 0x02 0).pc + 1))
                % 65536)
        ∧ (0x80 ≤ (example_state 0xF8 0x02 0).byte_at ((example_state 0xF8 0x02 0).pc + 1) →
            (((WordAddressable.register .HL).read16 cpu1.m_memory : Nat) : Int)
              = (((example_state 0xF8 0x02 0).sp : Int)
                  + (example_state 0xF8 0x02 0).byte_at ((example_state 0xF8 0x02 0).pc + 1)
                  - 256) % 65536)
        ∧ cpu1.m_memory.sp = (example_state 0xF8 0x02 0).sp
        ∧ cpu1.m_memory.pc = ((example_state 0xF8 0x02 0).pc + 2) % 65536 :=
  ⟨rfl, by decide, C13_ld_hl_sp_plus_r8 ⟨example_state 0xF8 0x02 0, 0⟩
    (example_state_wf 0xF8 0x02 0 (by decide) (by decide) (by decide)) (by decide)⟩

/-- C14: with the byte 0x01 at PC and the bytes lo at PC+1 and hi at PC+2, in a well-formed
state, the cycle sets BC to lo + 256 * hi and advances PC by 3, and the instruction's cycle cost
is 12; the same holds with DE, HL and SP as destination for 0x11, 0x21 and 0x31. -/
theorem C14_ld_r16_d16 (cpu : CPU) (hwf : cpu.m_memory.WF)
    (hop : cpu.m_memory.byte_at cpu.m_memory.pc ∈ [0x01, 0x11, 0x21, 0x31]) :
    ∃ instr cpu1, interpret_next_instruction cpu.m_memory = .ok instr
      ∧ instr.m_cycles = some 12
      ∧ cpu.decode_and_execute = .ok cpu1
      ∧ (WordAddressable.register
            (ld16_destination (cpu.m_memory.byte_at cpu.m_memory.pc))).read16 cpu1.m_memory
          = cpu.m_memory.byte_at (cpu.m_memory.pc + 1)
              + 256 * cpu.m_memory.byte_at (cpu.m_memory.pc + 2)
      ∧ cpu1.m_memory.pc = (cpu.m_memory.pc + 3) % 65536 := by
  have hlo := hwf.mem_lt ((cpu.m_memory.pc + 1) % 65536)
  have hhi := hwf.mem_lt ((cpu.m_memory.pc + 2) % 65536)
  have hadr : ((cpu.m_memory.pc + 1) % 65536 + 1) % 65536 = (cpu.m_memory.pc + 2) % 65536 := by
    omega
  simp only [List.mem_cons, List.mem_singleton, List.not_mem_nil, or_false] at hop
  rcases hop with h | h | h | h
  · have key : interpret_next_instruction cpu.m_memory
          = .ok { operation := .LoadWord (some (.memory ((cpu.m_memory.pc + 1) % 65536)))
                    (some (.register .BC)),
                  m_cycles := some 12, m_numBytes := some 3, m_postOperationActions := [] } := by
      rw [interpret_eq, h]; rfl
    refine ⟨_, _, key, rfl, decode_and_execute_eq cpu _ _ key (execute_eq _ 12 3 cpu _ rfl),
      ?_, rfl⟩
    rw [h]
    simp [ld16_destination, WordAddressable.write16, WordAddressable.read16, Memory.byte_at,
      hadr]
    omega
  · have key : interpret_next_instruction cpu.m_memory
          = .ok { operation := .LoadWord (some (.memory ((cpu.m_memory.pc + 1) % 65536)))
                    (some (.register .DE)),
                  m_cycles := some 12, m_numBytes := some 3, m_postOperationActions := [] } := by
      rw [interpret_eq, h]; rfl
    refine ⟨_, _, key, rfl, decode_and_execute_eq cpu _ _ key (execute_eq _ 12 3 cpu _ rfl),
      ?_, rfl⟩
    rw [h]
    simp [ld16_destination, WordAddressable.write16, WordAddressable.read16, Memory.byte_at,
      hadr]
    omega
  · have key : interpret_next_instruction cpu.m_memory
          = .ok { operation := .LoadWord (some (.memory ((cpu.m_memory.pc + 1) % 65536)))
                    (some (.register .HL)),
                  m_cycles := some 12, m_numBytes := some 3, m_postOperationActions := [] } := by
      rw [interpret_eq, h]; rfl
    refine ⟨_, _, key, rfl, decode_and_execute_eq cpu _ _ key (execute_eq _ 12 3 cpu _ rfl),
      ?_, rfl⟩
    rw [h]
    simp [ld16_destination, WordAddressable.write16, WordAddressable.read16, Memory.byte_at,
      hadr]
    omega
  · have key : interpret_next_instruction cpu.m_memory
          = .ok { operation := .LoadWord (some (.memory ((cpu.m_memory.pc + 1) % 65536)))
                    (some (.register .SP)),
                  m_cycles := some 12, m_numBytes := some 3, m_postOperationActions := [] } := by
      rw [interpret_eq, h]; rfl
    refine ⟨_, _, key, rfl, decode_and_execute_eq cpu _ _ key (execute_eq _ 12 3 cpu _ rfl),
      ?_, rfl⟩
    rw [h]
    simp [ld16_destination, WordAddressable.write16, WordAddressable.read16, Memory.byte_at,
      hadr]
    omega

/-- Witness of C14 at the bytes 01 50 C0 at PC = 0x0100: BC becomes 0xC050. -/
theorem C14_ld_r16_d16_witness :
    (example_state 0x01 0x50 0xC0).byte_at ((example_state 0x01 0x50 0xC0).pc + 1)
        + 256 * (example_state 0x01 0x50 0xC0).byte_at ((example_state 0x01 0x50 0xC0).pc + 2)
        = 0xC050
      ∧ ld16_destination ((example_state 0x01 0x50 0xC0).byte_at
          (example_state 0x01 0x50 0xC0).pc) = .BC
      ∧ ∃ instr cpu1, interpret_next_instruction (example_state 0x01 0x50 0xC0) = .ok instr
        ∧ instr.m_cycles = some 12
        ∧ CPU.decode_and_execute ⟨example_state 0x01 0x50 0xC0, 0⟩ = .ok cpu1
        ∧ (WordAddressable.register (ld16_destination ((example_state 0x01 0x50 0xC0).byte_at
              (example_state 0x01 0x50 0xC0).pc))).read16 cpu1.m_memory
            = (example_state 0x01 0x50 0xC0).byte_at ((example_state 0x01 0x50 0xC0).pc + 1)
                + 256 * (example_state 0x01 0x50 0xC0).byte_at
                    ((example_state 0x01 0x50 0xC0).pc + 2)
        ∧ cpu1.m_memory.pc = ((example_state 0x01 0x50 0xC0).pc + 3) % 65536 :=
  ⟨by decide, by decide, C14_ld_r16_d16 ⟨example_state 0x01 0x50 0xC0, 0⟩
    (example_state_wf 0x01 0x50 0xC0 (by decide) (by decide) (by decide)) (by decide)⟩

/-- C15 (fails on the code): with the byte 0x3E (`LD A,d8`) at PC the decoder returns the load
of the immediate byte into A with cycle cost 8 and length 1, not 2: executing it advances PC by
1, onto the immediate byte. -/
theorem C15_opcode_0x3E_has_length_1 (cpu : CPU)
    (h : cpu.m_memory.byte_at cpu.m_memory.pc = 0x3E) :
    interpret_next_instruction cpu.m_memory
        = .ok { operation := .LoadByte (some (.memory ((cpu.m_memory.pc + 1) % 65536)))
                  (some (.register .A)),
                m_cycles := some 8, m_numBytes := some 1, m_postOperationActions := [] }
      ∧ ∃ cpu1, cpu.decode_and_execute = .ok cpu1
          ∧ cpu1.m_memory.pc = (cpu.m_memory.pc + 1) % 65536 := by
  have key : interpret_next_instruction cpu.m_memory
        = .ok { operation := .LoadByte (some (.memory ((cpu.m_memory.pc + 1) % 65536)))
                  (some (.register .A)),
                m_cycles := some 8, m_numBytes := some 1, m_postOperationActions := [] } := by
    rw [interpret_eq, h]; rfl
  exact ⟨key, _, decode_and_execute_eq cpu _ _ key (execute_eq _ 8 1 cpu _ rfl), rfl⟩

/-- Witness of C15 at the state `example_state 0x3E 0x42 0` (PC = 0x0100): afterwards PC is
0x0101. -/
theorem C15_opcode_0x3E_has_length_1_witness :
    ((example_state 0x3E 0x42 0).pc + 1) % 65536 = 0x0101
      ∧ interpret_next_instruction (example_state 0x3E 0x42 0)
        = .ok { operation := .LoadByte
                  (some (.memory (((example_state 0x3E 0x42 0).pc + 1) % 65536)))
                  (some (.register .A)),
                m_cycles := some 8, m_numBytes := some 1, m_postOperationActions := [] }
      ∧ ∃ cpu1, CPU.decode_and_execute ⟨example_state 0x3E 0x42 0, 0⟩ = .ok cpu1
          ∧ cpu1.m_memory.pc = ((example_state 0x3E 0x42 0).pc + 1) % 65536 :=
  ⟨by decide, C15_opcode_0x3E_has_length_1 ⟨example_state 0x3E 0x42 0, 0⟩ (by decide)⟩

/-- C16 (fails on the code): none of the blocks of 0x22, 0x2A, 0x32 and 0x3A has a `return`, so
for each of these bytes at PC the decoder returns the instruction of the block that follows
(`LD H,n`, `LD L,n`, `LD (HL),n`, `LD A,d8`): it has no post-operation action, and it is a load
from or to the immediate byte, with length 2 for the first three. -/
theorem C16_auto_increment_loads_have_no_post_effect (m : Memory)
    (hop : m.byte_at m.pc ∈ [0x22, 0x2A, 0x32, 0x3A]) :
    ∃ instr, interpret_next_instruction m = .ok instr
      ∧ instr.m_postOperationActions.length = 0
      ∧ instr.operation
          = (if m.byte_at m.pc = 0x22 then
              .LoadByte (some (.register .H)) (some (.memory ((m.pc + 1) % 65536)))
            else if m.byte_at m.pc = 0x2A then
              .LoadByte (some (.register .L)) (some (.memory ((m.pc + 1) % 65536)))
            else if m.byte_at m.pc = 0x32 then
              .LoadByte (some (.memory ((m.pc + 1) % 65536)))
                (some (.memory (((WordAddressable.register .HL).read16 m + 0) % 65536)))
            else .LoadByte (some (.memory ((m.pc + 1) % 65536))) none)
      ∧ instr.m_cycles = (if m.byte_at m.pc = 0x32 then some 12 else some 8)
      ∧ instr.m_numBytes = (if m.byte_at m.pc = 0x3A then some 1 else some 2) := by
  rw [interpret_eq]
  simp only [List.mem_cons, List.mem_singleton, List.not_mem_nil, or_false] at hop
  rcases hop with h | h | h | h <;> rw [h] <;> exact ⟨_, rfl, rfl, rfl, rfl, rfl⟩

/-- Witness of C16 at the state `example_state 0x2A 0 0` (opcode 0x2A, `LD A,(HL+)`). -/
theorem C16_auto_increment_loads_have_no_post_effect_witness :
    ∃ instr, interpret_next_instruction (example_state 0x2A 0 0) = .ok instr
      ∧ instr.m_postOperationActions.length = 0
      ∧ instr.operation
          = (if (example_state 0x2A 0 0).byte_at (example_state 0x2A 0 0).pc = 0x22 then
              .LoadByte (some (.register .H))
                (some (.memory (((example_state 0x2A 0 0).pc + 1) % 65536)))
            else if (example_state 0x2A 0 0).byte_at (example_state 0x2A 0 0).pc = 0x2A then
              .LoadByte (some (.register .L))
                (some (.memory (((example_state 0x2A 0 0).pc + 1) % 65536)))
            else if (example_state 0x2A 0 0).byte_at (example_state 0x2A 0 0).pc = 0x32 then
              .LoadByte (some (.memory (((example_state 0x2A 0 0).pc + 1) % 65536)))
                (some (.memory (((WordAddressable.register .HL).read16 (example_state 0x2A 0 0)
                  + 0) % 65536)))
            else .LoadByte (some (.memory (((example_state 0x2A 0 0).pc + 1) % 65536))) none)
      ∧ instr.m_cycles
          = (if (example_state 0x2A 0 0).byte_at (example_state 0x2A 0 0).pc = 0x32 then some 12
            else some 8)
      ∧ instr.m_numBytes
          = (if (example_state 0x2A 0 0).byte_at (example_state 0x2A 0 0).pc = 0x3A then some 1
            else some 2) :=
  C16_auto_increment_loads_have_no_post_effect (example_state 0x2A 0 0) (by decide)

/-- C17: for every byte op in 0x40-0x7F other than 0x76 at PC, the decoder returns an
instruction of length 1 whose cycle cost is 8 when an operand is `(HL)` (op mod 8 = 6 or
(op / 8) mod 8 = 6) and 4 otherwise. -/
theorem C17_ld_r_r_cycles_and_length (m : Memory)
    (hlo : 0x40 ≤ m.byte_at m.pc) (hhi : m.byte_at m.pc ≤ 0x7F) (hne : m.byte_at m.pc ≠ 0x76) :
    ∃ instr, interpret_next_instruction m = .ok instr
      ∧ instr.m_numBytes = some 1
      ∧ instr.m_cycles
          = some (if m.byte_at m.pc % 8 = 6 ∨ m.byte_at m.pc / 8 % 8 = 6 then 8 else 4) := by
  rw [interpret_eq]
  generalize m.byte_at m.pc = op at hlo hhi hne
  interval_cases op <;> first
    | exact absurd rfl hne
    | exact ⟨_, rfl, rfl, rfl⟩

/-- Witness of C17 at the state `example_state 0x46 0 0` (opcode 0x46, `LD B,(HL)`). -/
theorem C17_ld_r_r_cycles_and_length_witness :
    (example_state 0x46 0 0).byte_at (example_state 0x46 0 0).pc = 0x46
      ∧ ∃ instr, interpret_next_instruction (example_state 0x46 0 0) = .ok instr
        ∧ instr.m_numBytes = some 1
        ∧ instr.m_cycles
            = some (if (example_state 0x46 0 0).byte_at (example_state 0x46 0 0).pc % 8 = 6
                      ∨ (example_state 0x46 0 0).byte_at (example_state 0x46 0 0).pc / 8 % 8 = 6
                    then 8 else 4) :=
  ⟨by decide, C17_ld_r_r_cycles_and_length (example_state 0x46 0 0)
    (by decide) (by decide) (by decide)⟩

/-- C18: execute ordering. For an instruction configured with the post-effects p1, ..., pn by
successive calls of `then`, `execute` yields the state of the primary effect, to which p1, then
p2, ..., then pn are applied, and in which only then the instruction length is added to PC; so a
post-effect reads the state left by the primary effect, with the PC from before the advance. -/
theorem C18_execute_runs_post_effects_in_order_before_pc (i : Instruction)
    (ps : List (Memory → Memory)) (c n : Nat) (cpu cpu1 : CPU)
    (hpost : i.m_postOperationActions = [])
    (hc : i.m_cycles = some c) (hn : i.m_numBytes = some n)
    (hop : i.operation.perform_operation cpu = .ok cpu1) :
    (ps.foldl Instruction.then_ i).m_postOperationActions = ps
      ∧ (ps.foldl Instruction.then_ i).execute cpu
          = .ok { m_memory :=
                    { ps.foldl (fun m p => p m) cpu1.m_memory with
                      pc := ((ps.foldl (fun m p => p m) cpu1.m_memory).pc + n) % 65536 },
                  clock := cpu1.clock + (c + 1) } := by
  have hps : (ps.foldl Instruction.then_ i).m_postOperationActions = ps := by
    rw [foldl_then_eq, hpost]; rfl
  refine ⟨hps, ?_⟩
  have hex := execute_general (ps.foldl Instruction.then_ i) c n cpu cpu1
    (by rw [foldl_then_eq]; exact hc) (by rw [foldl_then_eq]; exact hn)
    (by rw [foldl_then_eq]; exact hop)
  rw [hps] at hex
  exact hex

/-- Witness of C18: the load of B into A with length 1 and the post-effects HL + 1, then a copy
of L into H, executed in the state `example_state 0 0 0` (B = 0x12, HL = 0xC000, PC = 0x0100):
afterwards A = 0x12, L = 0x01 from the first post-effect, H = 0x01 from the second, which read
the incremented L, and PC = 0x0101. -/
theorem C18_execute_runs_post_effects_in_order_before_pc_witness :
    ([post_HL_plus_1, fun m => { m with h := m.l }].foldl Instruction.then_
        (example_instruction.with_instruction_length 1)).m_postOperationActions
        = [post_HL_plus_1, fun m => { m with h := m.l }]
      ∧ ([post_HL_plus_1, fun m => { m with h := m.l }].foldl Instruction.then_
          (example_instruction.with_instruction_length 1)).execute ⟨example_state 0 0 0, 0⟩
        = .ok { m_memory :=
                  { a := 0x12, f := 0, b := 0x12, c := 0x34, d := 0, e := 0, h := 0x01, l := 0x01,
                    sp := 0xFFFE, pc := 0x101, mem := (example_state 0 0 0).mem },
                clock := 5 } :=
  C18_execute_runs_post_effects_in_order_before_pc
    (example_instruction.with_instruction_length 1)
    [post_HL_plus_1, fun m => { m with h := m.l }] 4 1 ⟨example_state 0 0 0, 0⟩
    ⟨{ example_state 0 0 0 with a := 0x12 }, 0⟩ rfl rfl rfl rfl

/-- C19: program-counter advance. For an instruction configured with length n,
`move_program_counter` replaces PC by (PC + n) mod 65536 and changes nothing else; and when p is
the PC after the primary effect and all post-effects, the PC after `execute` is
(p + n) mod 65536, every other register and memory cell being as the post-effects left it. -/
theorem C19_program_counter_advance (i : Instruction) (n c : Nat) (cpu cpu1 : CPU)
    (hc : i.m_cycles = some c)
    (hop : i.operation.perform_operation cpu = .ok cpu1) :
    (∀ cpu0 : CPU, (i.with_instruction_length n).move_program_counter cpu0
        = .ok { cpu0 with
                m_memory := { cpu0.m_memory with pc := (cpu0.m_memory.pc + n) % 65536 } })
      ∧ ∃ cpu2, (i.with_instruction_length n).execute cpu = .ok cpu2
          ∧ cpu2.m_memory
              = { i.m_postOperationActions.foldl (fun m p => p m) cpu1.m_memory with
                  pc := ((i.m_postOperationActions.foldl (fun m p => p m) cpu1.m_memory).pc + n)
                    % 65536 } := by
  constructor
  · intro cpu0
    simp [Instruction.move_program_counter, Instruction.with_instruction_length,
      CPU.get_program_counter, Memory.get_word_register, WordAddressable.read16,
      WordAddressable.write16]
  · refine ⟨_, execute_general (i.with_instruction_length n) c (n % 65536) cpu cpu1 hc rfl hop,
      ?_⟩
    simp [Instruction.with_instruction_length]

/-- Witness of C19: the load of B into A configured with length 3, executed in the state
`example_state 0 0 0` (PC = 0x0100). -/
theorem C19_program_counter_advance_witness :
    (∀ cpu0 : CPU, (example_instruction.with_instruction_length 3).move_program_counter cpu0
        = .ok { cpu0 with
                m_memory := { cpu0.m_memory with pc := (cpu0.m_memory.pc + 3) % 65536 } })
      ∧ ∃ cpu2, (example_instruction.with_instruction_length 3).execute
            ⟨example_state 0 0 0, 0⟩ = .ok cpu2
          ∧ cpu2.m_memory
              = { example_instruction.m_postOperationActions.foldl (fun m p => p m)
                    ({ example_state 0 0 0 with a := 0x12 } : Memory) with
                  pc := ((example_instruction.m_postOperationActions.foldl (fun m p => p m)
                    ({ example_state 0 0 0 with a := 0x12 } : Memory)).pc + 3) % 65536 } :=
  C19_program_counter_advance example_instruction 3 4 ⟨example_state 0 0 0, 0⟩
    ⟨{ example_state 0 0 0 with a := 0x12 }, 0⟩ rfl rfl

/-- C20: clock accounting. For an instruction whose cycle cost c (0..255) was set by
`with_cycles`, the tick loop of `tick_clock` terminates, under any bound of at least c + 2
evaluations of its condition, and its result is `tick` applied exactly c + 1 times; the clock
has advanced by c + 1. -/
theorem C20_tick_clock_ticks_cycles_plus_one (i : Instruction) (c : Nat) (hc : c < 256)
    (cpu : CPU) :
    (i.with_cycles c).tick_clock cpu = .ok (Nat.iterate CPU.tick (c + 1) cpu)
      ∧ (∀ fuel, c + 2 ≤ fuel →
          tick_loop fuel 0 c cpu = .ok (Nat.iterate CPU.tick (c + 1) cpu))
      ∧ Nat.iterate CPU.tick (c + 1) cpu = { cpu with clock := cpu.clock + (c + 1) } := by
  have hmod : c % 256 = c := Nat.mod_eq_of_lt hc
  refine ⟨?_, ?_, ?_⟩
  · simp only [Instruction.tick_clock, Instruction.with_cycles, hmod]
    exact tick_loop_iterate (c + 2) 0 c cpu (by omega) (by omega)
  · intro fuel hfuel
    exact tick_loop_iterate fuel 0 c cpu (by omega) (by omega)
  · have h1 := tick_loop_iterate (c + 2) 0 c cpu (by omega) (by omega)
    have h2 := tick_loop_eq (c + 2) 0 c cpu (by omega) (by omega)
    exact Except.ok.inj (h1.symm.trans h2)

/-- Witness of C20 at the cycle cost 8: nine ticks. -/
theorem C20_tick_clock_ticks_cycles_plus_one_witness :
    (8 : Nat) < 256
      ∧ (example_instruction.with_cycles 8).tick_clock ⟨example_state 0 0 0, 0⟩
          = .ok (Nat.iterate CPU.tick (8 + 1) ⟨example_state 0 0 0, 0⟩)
      ∧ (∀ fuel, 8 + 2 ≤ fuel → tick_loop fuel 0 8 ⟨example_state 0 0 0, 0⟩
          = .ok (Nat.iterate CPU.tick (8 + 1) ⟨example_state 0 0 0, 0⟩))
      ∧ Nat.iterate CPU.tick (8 + 1) ⟨example_state 0 0 0, 0⟩
          = { (⟨example_state 0 0 0, 0⟩ : CPU) with clock := (0 : Nat) + (8 + 1) } :=
  ⟨by decide, C20_tick_clock_ticks_cycles_plus_one example_instruction 8 (by decide)
    ⟨example_state 0 0 0, 0⟩⟩

/-- C21 (fails on the code): the block of 0x08 (`LD (a16),SP`) builds the 16-bit store of SP
with cycle cost 20 and length 3 but has no `return`, so with the byte 0x08 at PC the decoder
returns the instruction of the block of 0x0A (`LD A,(BC)`): a load-byte from the byte at BC into
A, with cycle cost 8 and length 1. -/
theorem C21_opcode_0x08_returns_ld_a_bc (m : Memory) (h : m.byte_at m.pc = 0x08) :
    interpret_next_instruction m
      = .ok { operation := .LoadByte
                (some (.memory (((WordAddressable.register .BC).read16 m + 0) % 65536)))
                (some (.register .A)),
              m_cycles := some 8, m_numBytes := some 1, m_postOperationActions := [] } := by
  rw [interpret_eq, h]; rfl

/-- Witness of C21 at the state `example_state 0x08 0x50 0xC0` (BC = 0x1234). -/
theorem C21_opcode_0x08_returns_ld_a_bc_witness :
    (example_state 0x08 0x50 0xC0).byte_at (example_state 0x08 0x50 0xC0).pc = 0x08
      ∧ interpret_next_instruction (example_state 0x08 0x50 0xC0)
        = .ok { operation := .LoadByte
                  (some (.memory (((WordAddressable.register .BC).read16
                    (example_state 0x08 0x50 0xC0) + 0) % 65536)))
                  (some (.register .A)),
                m_cycles := some 8, m_numBytes := some 1, m_postOperationActions := [] } :=
  ⟨by decide, C21_opcode_0x08_returns_ld_a_bc (example_state 0x08 0x50 0xC0) (by decide)⟩

/-- C22: frame of a register-to-register move. For a byte op in 0x40-0x7F at PC whose operands
(source number op mod 8, destination number (op / 8) mod 8 of `[B, C, D, E, H, L, (HL), A]`) are
two distinct registers, the cycle changes only the destination register, which gets the source's
value, and PC, which advances by 1: every other 8-bit register, the source among them, SP and
every memory byte keep their values. -/
theorem C22_register_move_frame (cpu : CPU)
    (hlo : 0x40 ≤ cpu.m_memory.byte_at cpu.m_memory.pc)
    (hhi : cpu.m_memory.byte_at cpu.m_memory.pc ≤ 0x7F)
    (hs : cpu.m_memory.byte_at cpu.m_memory.pc % 8 ≠ 6)
    (hd : cpu.m_memory.byte_at cpu.m_memory.pc / 8 % 8 ≠ 6)
    (hne : cpu.m_memory.byte_at cpu.m_memory.pc % 8
      ≠ cpu.m_memory.byte_at cpu.m_memory.pc / 8 % 8) :
    ∃ rs rd cpu1,
      ld_operand cpu.m_memory (cpu.m_memory.byte_at cpu.m_memory.pc % 8) = .register rs
      ∧ ld_operand cpu.m_memory (cpu.m_memory.byte_at cpu.m_memory.pc / 8 % 8) = .register rd
      ∧ rs ≠ rd
      ∧ cpu.decode_and_execute = .ok cpu1
      ∧ (∀ r : Register, r ≠ rd →
          (ByteAddressable.register r).read8 cpu1.m_memory
            = (ByteAddressable.register r).read8 cpu.m_memory)
      ∧ (ByteAddressable.register rd).read8 cpu1.m_memory
          = (ByteAddressable.register rs).read8 cpu.m_memory % 256
      ∧ cpu1.m_memory.sp = cpu.m_memory.sp
      ∧ cpu1.m_memory.mem = cpu.m_memory.mem
      ∧ cpu1.m_memory.pc = (cpu.m_memory.pc + 1) % 65536 := by
  have key : ∃ rs rd,
      ld_operand cpu.m_memory (cpu.m_memory.byte_at cpu.m_memory.pc % 8) = .register rs
      ∧ ld_operand cpu.m_memory (cpu.m_memory.byte_at cpu.m_memory.pc / 8 % 8) = .register rd
      ∧ rs ≠ rd
      ∧ interpret_next_instruction cpu.m_memory
          = .ok { operation := .LoadByte (some (.register rs)) (some (.register rd)),
                  m_cycles := some 4, m_numBytes := some 1, m_postOperationActions := [] } := by
    rw [interpret_eq]
    generalize cpu.m_memory.byte_at cpu.m_memory.pc = op at hlo hhi hs hd hne
    interval_cases op <;> first
      | omega
      | exact ⟨_, _, rfl, rfl, by decide, rfl⟩
  obtain ⟨rs, rd, hrs, hrd, hdist, hdec⟩ := key
  obtain ⟨cpu1, hex, hframe, hval, hsp, hmem, hpc⟩ := register_load_frame rs rd 4 1 cpu
  exact ⟨rs, rd, cpu1, hrs, hrd, hdist, decode_and_execute_eq cpu _ _ hdec hex, hframe, hval,
    hsp, hmem, hpc⟩

/-- Witness of C22 at the state `example_state 0x41 0 0` (opcode 0x41, `LD B,C`). -/
theorem C22_register_move_frame_witness :
    (example_state 0x41 0 0).byte_at (example_state 0x41 0 0).pc = 0x41
      ∧ ∃ rs rd cpu1,
        ld_operand (example_state 0x41 0 0)
            ((example_state 0x41 0 0).byte_at (example_state 0x41 0 0).pc % 8) = .register rs
        ∧ ld_operand (example_state 0x41 0 0)
            ((example_state 0x41 0 0).byte_at (example_state 0x41 0 0).pc / 8 % 8)
            = .register rd
        ∧ rs ≠ rd
        ∧ CPU.decode_and_execute ⟨example_state 0x41 0 0, 0⟩ = .ok cpu1
        ∧ (∀ r : Register, r ≠ rd →
            (ByteAddressable.register r).read8 cpu1.m_memory
              = (ByteAddressable.register r).read8 (example_state 0x41 0 0))
        ∧ (ByteAddressable.register rd).read8 cpu1.m_memory
            = (ByteAddressable.register rs).read8 (example_state 0x41 0 0) % 256
        ∧ cpu1.m_memory.sp = (example_state 0x41 0 0).sp
        ∧ cpu1.m_memory.mem = (example_state 0x41 0 0).mem
        ∧ cpu1.m_memory.pc = ((example_state 0x41 0 0).pc + 1) % 65536 :=
  ⟨by decide, C22_register_move_frame ⟨example_state 0x41 0 0, 0⟩
    (by decide) (by decide) (by decide) (by decide) (by decide)⟩

/-- C23: every instruction that the decoder returns, whatever the byte at PC, has a cycle cost
of 4, 8, 12 or 16 and a length of 1, 2 or 3 bytes. -/
theorem C23_returned_cycle_cost_and_length (m : Memory) (instr : Instruction)
    (h : interpret_next_instruction m = .ok instr) :
    (instr.m_cycles = some 4 ∨ instr.m_cycles = some 8 ∨ instr.m_cycles = some 12
        ∨ instr.m_cycles = some 16)
      ∧ (instr.m_numBytes = some 1 ∨ instr.m_numBytes = some 2 ∨ instr.m_numBytes = some 3) := by
  rw [interpret_eq, switch_on_eq_run_blocks] at h
  have hs := (on_suffixes_dropWhile _
    (fun blk => !blk.labels.contains (m.byte_at m.pc)) _ (decode_suffixes m)).1
  rw [h] at hs
  simp only [result_in_table, Bool.and_eq_true] at hs
  exact ⟨is_table_cycle_cost_iff _ hs.1, is_table_length_iff _ hs.2⟩

/-- Witness of C23 at the state `example_state 0xFA 0x50 0xC0` (opcode 0xFA, cycle cost 16,
length 3). -/
theorem C23_returned_cycle_cost_and_length_witness :
    ∃ instr, interpret_next_instruction (example_state 0xFA 0x50 0xC0) = .ok instr
      ∧ instr.m_cycles = some 16 ∧ instr.m_numBytes = some 3
      ∧ ((instr.m_cycles = some 4 ∨ instr.m_cycles = some 8 ∨ instr.m_cycles = some 12
          ∨ instr.m_cycles = some 16)
        ∧ (instr.m_numBytes = some 1 ∨ instr.m_numBytes = some 2
          ∨ instr.m_numBytes = some 3)) :=
  ⟨_, rfl, rfl, rfl, C23_returned_cycle_cost_and_length (example_state 0xFA 0x50 0xC0) _ rfl⟩

/-- C24: for a byte at PC, the decoder signals the unimplemented-opcode condition exactly when
the byte is in 0xFB-0xFF, and returns an instruction for every byte 0x00-0xFA. -/
theorem C24_abort_iff_0xFB_to_0xFF (m : Memory) (hbyte : m.byte_at m.pc < 256) :
    (interpret_next_instruction m = .error .abort
        ↔ 0xFB ≤ m.byte_at m.pc ∧ m.byte_at m.pc ≤ 0xFF)
      ∧ (m.byte_at m.pc ≤ 0xFA → ∃ instr, interpret_next_instruction m = .ok instr) := by
  have hs := (on_suffixes_dropWhile _
    (fun blk => !blk.labels.contains (m.byte_at m.pc)) _ (decode_suffixes m)).2
  have hlen := entry_before_last_block (m.byte_at m.pc) hbyte
  rw [interpret_eq, switch_on_eq_run_blocks]
  generalize (switch_blocks.dropWhile fun blk => !blk.labels.contains (m.byte_at m.pc)) = s
    at hs hlen
  generalize run_blocks s m (decode_locals m) = r at hs
  cases r with
  | ok instr =>
    simp only [returns_unless_last] at hs
    rw [hs] at hlen
    have hle : m.byte_at m.pc ≤ 0xFA := of_decide_eq_true hlen.symm
    refine ⟨⟨fun hc => Except.noConfusion hc, fun hge => ?_⟩, fun _ => ⟨instr, rfl⟩⟩
    omega
  | error fault =>
    cases fault with
    | abort =>
      simp only [returns_unless_last, decide_eq_true_eq] at hs
      have hnot : ¬ m.byte_at m.pc ≤ 0xFA := by
        intro hle
        have h2 : 2 ≤ s.length := of_decide_eq_true (hlen.trans (decide_eq_true hle))
        omega
      refine ⟨⟨fun _ => ⟨by omega, by omega⟩, fun _ => rfl⟩, fun hle => absurd hle hnot⟩
    | null_dereference => exact absurd hs (by simp [returns_unless_last])
    | uninitialised => exact absurd hs (by simp [returns_unless_last])
    | out_of_fuel => exact absurd hs (by simp [returns_unless_last])

/-- Witness of C24 at the state `example_state 0xFB 0 0` (opcode 0xFB). -/
theorem C24_abort_iff_0xFB_to_0xFF_witness :
    (example_state 0xFB 0 0).byte_at (example_state 0xFB 0 0).pc = 0xFB
      ∧ (interpret_next_instruction (example_state 0xFB 0 0) = .error .abort
          ↔ 0xFB ≤ (example_state 0xFB 0 0).byte_at (example_state 0xFB 0 0).pc
            ∧ (example_state 0xFB 0 0).byte_at (example_state 0xFB 0 0).pc ≤ 0xFF)
      ∧ ((example_state 0xFB 0 0).byte_at (example_state 0xFB 0 0).pc ≤ 0xFA →
          ∃ instr, interpret_next_instruction (example_state 0xFB 0 0) = .ok instr) :=
  ⟨by decide, C24_abort_iff_0xFB_to_0xFF (example_state 0xFB 0 0) (by decide)⟩

/-- C25, counterexample: the label 0x37 has no handler of its own and the next handler that
returns is that of 0x3E, but in the state `example_state 0x37 0x42 0` the decoder returns a load
of the immediate byte with no destination, and in the same state with the byte 0x3E at PC a load
of the immediate byte into A: the block of 0x3A, which lies between, has moved `regA`. -/
theorem C25_counterexample_0x37_unlike_0x3E :
    (example_state 0x37 0x42 0).byte_at (example_state 0x37 0x42 0).pc = 0x37
      ∧ next_returning_handler 0x37 = 0x3E
      ∧ ((example_state 0x37 0x42 0).set_byte (example_state 0x37 0x42 0).pc 0x3E).byte_at
          ((example_state 0x37 0x42 0).set_byte (example_state 0x37 0x42 0).pc 0x3E).pc = 0x3E
      ∧ (interpret_next_instruction (example_state 0x37 0x42 0)).toOption.map (·.operation)
          = some (.LoadByte (some (.memory 0x101)) none)
      ∧ (interpret_next_instruction ((example_state 0x37 0x42 0).set_byte
            (example_state 0x37 0x42 0).pc 0x3E)).toOption.map (·.operation)
          = some (.LoadByte (some (.memory 0x101)) (some (.register .A)))
      ∧ interpret_next_instruction (example_state 0x37 0x42 0)
          ≠ interpret_next_instruction ((example_state 0x37 0x42 0).set_byte
              (example_state 0x37 0x42 0).pc 0x3E) := by
  refine ⟨by decide, by decide, by decide, by decide, by decide, fun hc => ?_⟩
  have hop := congrArg (fun r => r.toOption.map (·.operation)) hc
  revert hop
  decide

/-- C25, amended: every byte op at PC other than 0x37-0x3A decodes exactly like the next handler
that returns: the decoder returns what it returns in the same state with the opcode of that
handler at PC. For the opcodes of the claim that handler is the claimed one: 0xC1 for 0x80-0xC0
(pop into BC, cycle cost 12, length 1), 0x01 for 0x00, 0x77 for 0x76, 0x0A for 0x08 and 0xD1
for 0xC6-0xD0. -/
theorem C25_decode_like_next_returning_handler (m : Memory) (hbyte : m.byte_at m.pc < 256)
    (hex : ¬ (0x37 ≤ m.byte_at m.pc ∧ m.byte_at m.pc ≤ 0x3A)) :
    interpret_next_instruction m
        = interpret_next_instruction
            (m.set_byte m.pc (next_returning_handler (m.byte_at m.pc)))
      ∧ (m.set_byte m.pc (next_returning_handler (m.byte_at m.pc))).byte_at
          (m.set_byte m.pc (next_returning_handler (m.byte_at m.pc))).pc
          = next_returning_handler (m.byte_at m.pc)
      ∧ (((0x80 ≤ m.byte_at m.pc ∧ m.byte_at m.pc ≤ 0xC0) ∨ m.byte_at m.pc = 0x00
            ∨ m.byte_at m.pc = 0x76 ∨ m.byte_at m.pc = 0x08
            ∨ (0xC6 ≤ m.byte_at m.pc ∧ m.byte_at m.pc ≤ 0xD0)) →
          next_returning_handler (m.byte_at m.pc) = next_handler (m.byte_at m.pc))
      ∧ ((0x80 ≤ m.byte_at m.pc ∧ m.byte_at m.pc ≤ 0xC0) →
          interpret_next_instruction m
            = .ok { operation := .Pop (some (.register .BC)),
                    m_cycles := some 12, m_numBytes := some 1,
                    m_postOperationActions := [] }) := by
  have htab := next_returning_handler_table (m.byte_at m.pc) hbyte
  simp only [next_returning_handler_ok, Bool.and_eq_true, Bool.or_eq_true, decide_eq_true_eq]
    at htab
  obtain ⟨⟨hlt, hlen⟩, hhead⟩ := htab
  have hhead : head_handler (entry_suffix (m.byte_at m.pc)) ≠ some 0x3A :=
    hhead.resolve_left hex
  refine ⟨?_, ?_, ?_, ?_⟩
  · have hsuf : entry_suffix (next_returning_handler (m.byte_at m.pc))
        = skip_block_without_return (entry_suffix (m.byte_at m.pc)) :=
      suffix_eq_of_length_eq _ _ switch_blocks (List.dropWhile_suffix _)
        ((skip_block_without_return_suffix _).trans (List.dropWhile_suffix _)) hlen
    have hskip := on_suffixes_dropWhile _
      (fun blk => !blk.labels.contains (m.byte_at m.pc)) _
      (run_skips_block_without_return m) hhead
    have hagree := on_suffixes_dropWhile _
      (fun blk => !blk.labels.contains (next_returning_handler (m.byte_at m.pc))) _
      (decode_suffixes_agree m (m.set_byte m.pc (next_returning_handler (m.byte_at m.pc)))
        rfl
        (by
          have : (m.pc + 1) % 65536 ≠ m.pc % 65536 := by omega
          simp [Memory.set_byte, Memory.byte_at, this])
        (by
          have : (m.pc + 2) % 65536 ≠ m.pc % 65536 := by omega
          simp [Memory.set_byte, Memory.byte_at, this])
        rfl rfl rfl rfl rfl rfl rfl)
    rw [interpret_set_opcode m _ hlt, interpret_eq, switch_on_eq_run_blocks,
      switch_on_eq_run_blocks]
    exact (hskip.trans (congrArg (fun s => run_blocks s m (decode_locals m)) hsuf.symm)).trans
      hagree
  · generalize next_returning_handler (m.byte_at m.pc) = t at hlt
    simp [Memory.set_byte, Memory.byte_at, Nat.mod_eq_of_lt hlt]
  · intro h
    generalize m.byte_at m.pc = op at h
    rcases h with ⟨h1, h2⟩ | h | h | h | ⟨h1, h2⟩
    · interval_cases op <;> decide
    · subst h; decide
    · subst h; decide
    · subst h; decide
    · interval_cases op <;> decide
  · rintro ⟨h1, h2⟩
    rw [interpret_eq]
    generalize m.byte_at m.pc = op at h1 h2
    interval_cases op <;> rfl

/-- Witness of the amended C25 at the state `example_state 0x08 0x50 0xC0` (opcode 0x08, which
decodes like 0x0A). -/
theorem C25_decode_like_next_returning_handler_witness :
    (example_state 0x08 0x50 0xC0).byte_at (example_state 0x08 0x50 0xC0).pc = 0x08
      ∧ next_returning_handler ((example_state 0x08 0x50 0xC0).byte_at
          (example_state 0x08 0x50 0xC0).pc) = 0x0A
      ∧ interpret_next_instruction (example_state 0x08 0x50 0xC0)
          = interpret_next_instruction ((example_state 0x08 0x50 0xC0).set_byte
              (example_state 0x08 0x50 0xC0).pc
              (next_returning_handler ((example_state 0x08 0x50 0xC0).byte_at
                (example_state 0x08 0x50 0xC0).pc))) :=
  ⟨by decide, by decide,
    (C25_decode_like_next_returning_handler (example_state 0x08 0x50 0xC0)
      (by decide) (by decide)).1⟩

end GameBoy
